import Mathlib

/-! GATT client discovery engine of the nRF51822 BLE port

Shallow embedding of `btle/btle_gattc.cpp`: the `DiscoveryStatus` singleton, its
page bookkeeping, the two progression loops and `bleGattcEventHandler`.

Conventions of the embedding

* machine integers are `Nat`; a `uint8_t` increment is taken `% 256`, the
  assignment of `valueHandle + 1` to a `Gap::Handle_t` (16 bit) is taken `% 65536`;
* the two C arrays of four records are values of `Arr4`; an access outside
  `0..3` is undefined behaviour in C++ and ends the run with a `Fault` that names
  the array and the index;
* the outbound SoftDevice calls and the `printf` diagnostics are collected, in
  program order, in a list of `Action`s; the return code of a SoftDevice call is
  only printed by the code, so the call and that print are one `Action`;
* the `while` loops are unrolled with a fuel of 256 iterations (the loop counters
  are `uint8_t`), running out of it is the fault `loopFuel`.
-/

namespace BtleGattc

/-! ## Constants -/

/-- Number of service records the module holds: `BLE_DB_DISCOVERY_MAX_SRV`. -/
def BLE_DB_DISCOVERY_MAX_SRV : Nat := 4

/-- Number of characteristic records the module holds:
`BLE_DB_DISCOVERY_MAX_CHAR_PER_SRV`. -/
def BLE_DB_DISCOVERY_MAX_CHAR_PER_SRV : Nat := 4

/-- The start handle value used during service discovery: `SRV_DISC_START_HANDLE`. -/
def SRV_DISC_START_HANDLE : Nat := 0x0001

/-- The SoftDevice status `BLE_GATT_STATUS_SUCCESS`. Its value comes from the
SoftDevice header `ble_gatt.h`; the handler only compares against it. -/
def BLE_GATT_STATUS_SUCCESS : Nat := 0x0000

/-- The SoftDevice status `BLE_GATT_STATUS_ATTERR_ATTRIBUTE_NOT_FOUND`. Its value
comes from the SoftDevice header `ble_gatt.h`; the handler only compares against
it. -/
def BLE_GATT_STATUS_ATTERR_ATTRIBUTE_NOT_FOUND : Nat := 0x010A

/-! ## Records and arrays -/

/-- The struct `DiscoveredService`. -/
structure DiscoveredService where
  uuid : Nat
  startHandle : Nat
  endHandle : Nat
deriving DecidableEq, Repr

/-- The struct `DiscoveredCharacteristic`. -/
structure DiscoveredCharacteristic where
  uuid : Nat
  props : Nat
  declHandle : Nat
  valueHandle : Nat
deriving DecidableEq, Repr

/-- A C array of four elements (both page capacities are 4). -/
structure Arr4 (α : Type) where
  e0 : α
  e1 : α
  e2 : α
  e3 : α
deriving DecidableEq, Repr

/-- All four elements equal to `a` (the result of `memset` with `a` the zero record). -/
def Arr4.fill {α : Type} (a : α) : Arr4 α := ⟨a, a, a, a⟩

/-- Read `xs[i]`; `none` when `i` is outside `0..3`. -/
def Arr4.read {α : Type} (xs : Arr4 α) (i : Int) : Option α :=
  if i = 0 then some xs.e0
  else if i = 1 then some xs.e1
  else if i = 2 then some xs.e2
  else if i = 3 then some xs.e3
  else none

/-- Write `xs[i] = a`; `none` when `i` is outside `0..3`. -/
def Arr4.write {α : Type} (xs : Arr4 α) (i : Int) (a : α) : Option (Arr4 α) :=
  if i = 0 then some { xs with e0 := a }
  else if i = 1 then some { xs with e1 := a }
  else if i = 2 then some { xs with e2 := a }
  else if i = 3 then some { xs with e3 := a }
  else none

/-- The record left by `memset(services, 0, ...)`. -/
def DiscoveredService.zero : DiscoveredService := ⟨0, 0, 0⟩

/-- The record left by `memset(characteristics, 0, ...)`. -/
def DiscoveredCharacteristic.zero : DiscoveredCharacteristic := ⟨0, 0, 0, 0⟩

/-! ## Events, faults and observable actions -/

/-- One entry of a primary-service discovery response (`ble_gattc_service_t`):
the fields read by `setupDiscoveredServices`. -/
structure GattcService where
  uuid : Nat
  start_handle : Nat
  end_handle : Nat
deriving DecidableEq, Repr

/-- One entry of a characteristic discovery response (`ble_gattc_char_t`): the
fields read by `setupDiscoveredCharacteristics`. -/
structure GattcChar where
  uuid : Nat
  char_props : Nat
  handle_decl : Nat
  handle_value : Nat
deriving DecidableEq, Repr

/-- The inbound event `ble_evt_t` as far as the handler looks at it: the event
id selects the constructor, discovery responses carry `gatt_status` and the
records of the response (`count` is the length of the list). `other` stands for
an event whose id is none of those named by the other constructors. -/
inductive GattcEvt where
  | primSrvcDiscRsp (gatt_status : Nat) (services : List GattcService)
  | charDiscRsp (gatt_status : Nat) (chars : List GattcChar)
  | readRsp (handle : Nat) (offset : Nat) (data : List Nat)
  | writeRsp (handle : Nat) (write_op : Nat) (offset : Nat) (data : List Nat)
  | hvx (handle : Nat) (type : Nat) (data : List Nat)
  | other (evt_id : Nat)
deriving DecidableEq, Repr

/-- Why a run has no defined result. -/
inductive Fault where
  | servicesIndex (i : Int)
  | characteristicsIndex (i : Int)
  | loopFuel
deriving DecidableEq, Repr

/-- What the code does to the outside, in program order. -/
inductive Action where
  | sd_ble_gattc_primary_services_discover (conn_handle : Nat) (start_handle : Nat)
  | sd_ble_gattc_characteristics_discover (conn_handle : Nat) (start_handle : Nat)
      (end_handle : Nat)
  | printService (uuid : Nat) (startHandle : Nat) (endHandle : Nat)
  | printCharacteristic (uuid : Nat) (valueHandle : Nat)
  | printEndOfServiceDiscovery
  | printGattFailure (gatt_status : Nat)
  | printCharGattFailure (gatt_status : Nat)
deriving DecidableEq, Repr

/-- Whether an action is an outbound discovery request. -/
def Action.isRequest : Action → Bool
  | .sd_ble_gattc_primary_services_discover _ _ => true
  | .sd_ble_gattc_characteristics_discover _ _ _ => true
  | _ => false

/-- Whether an action is an outbound characteristic-discovery request. -/
def Action.isCharRequest : Action → Bool
  | .sd_ble_gattc_characteristics_discover _ _ _ => true
  | _ => false

/-- The outbound discovery requests among the actions, in order. -/
def requests (out : List Action) : List Action := out.filter Action.isRequest

/-- The outbound characteristic-discovery requests among the actions, in order. -/
def charRequests (out : List Action) : List Action := out.filter Action.isCharRequest

/-! ## The session state -/

/-- The struct `DiscoveryStatus` (fields only). -/
structure DiscoveryStatus where
  services : Arr4 DiscoveredService
  characteristics : Arr4 DiscoveredCharacteristic
  connHandle : Nat
  currSrvInd : Nat
  srvCount : Nat
  currCharInd : Nat
  charCount : Nat
  serviceDiscoveryInProgress : Bool
  characteristicDiscoveryInProgress : Bool
deriving DecidableEq, Repr

/-- The zero-initialised static `discoveryStatus`. -/
def discoveryStatus : DiscoveryStatus :=
  { services := Arr4.fill DiscoveredService.zero
    characteristics := Arr4.fill DiscoveredCharacteristic.zero
    connHandle := 0
    currSrvInd := 0
    srvCount := 0
    currCharInd := 0
    charCount := 0
    serviceDiscoveryInProgress := false
    characteristicDiscoveryInProgress := false }

/-- Result of a piece of code that may fault: the new state and what it emitted. -/
abbrev Run := Except Fault (DiscoveryStatus × List Action)

/-- The three modes the two flags are meant to encode. -/
inductive Mode where
  | Idle
  | DiscoveringServices
  | DiscoveringCharacteristics
deriving DecidableEq, Repr

/-- The mode encoded by the two flags; `none` when both are set. -/
def DiscoveryStatus.mode (s : DiscoveryStatus) : Option Mode :=
  match s.serviceDiscoveryInProgress, s.characteristicDiscoveryInProgress with
  | false, false => some Mode.Idle
  | true, false => some Mode.DiscoveringServices
  | false, true => some Mode.DiscoveringCharacteristics
  | true, true => none

/-! ## Member functions of `DiscoveryStatus` -/

/-- `terminateServiceDiscovery`. -/
def terminateServiceDiscovery (s : DiscoveryStatus) : DiscoveryStatus × List Action :=
  ({ s with serviceDiscoveryInProgress := false }, [Action.printEndOfServiceDiscovery])

/-- `terminateCharacteristicDiscovery`; `currSrvInd` is a `uint8_t`. -/
def terminateCharacteristicDiscovery (s : DiscoveryStatus) : DiscoveryStatus :=
  { s with
    characteristicDiscoveryInProgress := false
    serviceDiscoveryInProgress := true
    currSrvInd := (s.currSrvInd + 1) % 256 }

/-- `resetDiscoveredServices`. -/
def resetDiscoveredServices (s : DiscoveryStatus) : DiscoveryStatus :=
  { s with
    srvCount := 0
    currSrvInd := 0
    services := Arr4.fill DiscoveredService.zero }

/-- `resetDiscoveredCharacteristics`. -/
def resetDiscoveredCharacteristics (s : DiscoveryStatus) : DiscoveryStatus :=
  { s with
    charCount := 0
    currCharInd := 0
    characteristics := Arr4.fill DiscoveredCharacteristic.zero }

/-- `serviceDiscoveryStarted`. -/
def serviceDiscoveryStarted (connectionHandle : Nat) (s : DiscoveryStatus) :
    DiscoveryStatus :=
  { resetDiscoveredServices { s with connHandle := connectionHandle } with
    serviceDiscoveryInProgress := true
    characteristicDiscoveryInProgress := false }

/-- `characteristicDiscoveryStarted`. -/
def characteristicDiscoveryStarted (connectionHandle : Nat) (s : DiscoveryStatus) :
    DiscoveryStatus :=
  { resetDiscoveredCharacteristics { s with connHandle := connectionHandle } with
    characteristicDiscoveryInProgress := true
    serviceDiscoveryInProgress := false }

/-- The `for` loop of `setupDiscoveredServices`, from index `serviceIndex` on,
over the response entries still to copy. -/
def setupServicesLoop :
    List GattcService → Nat → Arr4 DiscoveredService → Except Fault (Arr4 DiscoveredService)
  | [], _, arr => .ok arr
  | r :: rest, serviceIndex, arr =>
    match arr.write serviceIndex ⟨r.uuid, r.start_handle, r.end_handle⟩ with
    | none => .error (Fault.servicesIndex serviceIndex)
    | some arr1 => setupServicesLoop rest (serviceIndex + 1) arr1

/-- `setupDiscoveredServices`; `srvCount` is a `uint8_t`, the loop copies the
entries `0 .. srvCount - 1` of the response. -/
def setupDiscoveredServices (response : List GattcService) (s : DiscoveryStatus) :
    Except Fault DiscoveryStatus :=
  let srvCount := response.length % 256
  match setupServicesLoop (response.take srvCount) 0 s.services with
  | .error f => .error f
  | .ok arr => .ok { s with currSrvInd := 0, srvCount := srvCount, services := arr }

/-- The `for` loop of `setupDiscoveredCharacteristics`, from index `charIndex` on. -/
def setupCharacteristicsLoop :
    List GattcChar → Nat → Arr4 DiscoveredCharacteristic →
      Except Fault (Arr4 DiscoveredCharacteristic)
  | [], _, arr => .ok arr
  | r :: rest, charIndex, arr =>
    match arr.write charIndex ⟨r.uuid, r.char_props, r.handle_decl, r.handle_value⟩ with
    | none => .error (Fault.characteristicsIndex charIndex)
    | some arr1 => setupCharacteristicsLoop rest (charIndex + 1) arr1

/-- `setupDiscoveredCharacteristics`; `charCount` is a `uint8_t`. -/
def setupDiscoveredCharacteristics (response : List GattcChar) (s : DiscoveryStatus) :
    Except Fault DiscoveryStatus :=
  let charCount := response.length % 256
  match setupCharacteristicsLoop (response.take charCount) 0 s.characteristics with
  | .error f => .error f
  | .ok arr => .ok { s with currCharInd := 0, charCount := charCount, characteristics := arr }

/-- `launchServiceDiscovery`. -/
def launchServiceDiscovery (connectionHandle : Nat) (s : DiscoveryStatus) :
    DiscoveryStatus × List Action :=
  (serviceDiscoveryStarted connectionHandle s,
    [Action.sd_ble_gattc_primary_services_discover connectionHandle SRV_DISC_START_HANDLE])

/-- `launchCharacteristicDiscovery`. -/
def launchCharacteristicDiscovery (connectionHandle startHandle endHandle : Nat)
    (s : DiscoveryStatus) : DiscoveryStatus × List Action :=
  (characteristicDiscoveryStarted connectionHandle s,
    [Action.sd_ble_gattc_characteristics_discover connectionHandle startHandle endHandle])

/-- The `while` loop of `progressCharacteristicDiscovery`. -/
def characteristicLoop : Nat → DiscoveryStatus → Run
  | 0, s =>
    if s.characteristicDiscoveryInProgress && decide (s.currCharInd < s.charCount) then
      .error Fault.loopFuel
    else .ok (s, [])
  | fuel + 1, s =>
    if s.characteristicDiscoveryInProgress && decide (s.currCharInd < s.charCount) then
      match s.characteristics.read s.currCharInd with
      | none => .error (Fault.characteristicsIndex s.currCharInd)
      | some c =>
        match characteristicLoop fuel { s with currCharInd := (s.currCharInd + 1) % 256 } with
        | .error f => .error f
        | .ok (s1, out) => .ok (s1, Action.printCharacteristic c.uuid c.valueHandle :: out)
    else .ok (s, [])

/-- `progressCharacteristicDiscovery`. -/
def progressCharacteristicDiscovery (s : DiscoveryStatus) : Run :=
  match characteristicLoop 256 s with
  | .error f => .error f
  | .ok (s1, out) =>
    if s1.characteristicDiscoveryInProgress then
      match s1.characteristics.read ((s1.currCharInd : Int) - 1) with
      | none => .error (Fault.characteristicsIndex ((s1.currCharInd : Int) - 1))
      | some c =>
        match s1.services.read s1.currSrvInd with
        | none => .error (Fault.servicesIndex s1.currSrvInd)
        | some srv =>
          let startHandle := (c.valueHandle + 1) % 65536
          let endHandle := srv.endHandle
          let s2 := resetDiscoveredCharacteristics s1
          if startHandle < endHandle then
            .ok (s2, out ++
              [Action.sd_ble_gattc_characteristics_discover s2.connHandle startHandle endHandle])
          else
            .ok (terminateCharacteristicDiscovery s2, out)
    else .ok (s1, out)

/-- The `while` loop of `progressServiceDiscovery`. -/
def serviceLoop : Nat → DiscoveryStatus → Run
  | 0, s =>
    if s.serviceDiscoveryInProgress && decide (s.currSrvInd < s.srvCount) then
      .error Fault.loopFuel
    else .ok (s, [])
  | fuel + 1, s =>
    if s.serviceDiscoveryInProgress && decide (s.currSrvInd < s.srvCount) then
      match s.services.read s.currSrvInd with
      | none => .error (Fault.servicesIndex s.currSrvInd)
      | some srv =>
        let (s1, out1) := launchCharacteristicDiscovery s.connHandle srv.startHandle srv.endHandle s
        match serviceLoop fuel s1 with
        | .error f => .error f
        | .ok (s2, out2) =>
          .ok (s2, Action.printService srv.uuid srv.startHandle srv.endHandle :: out1 ++ out2)
    else .ok (s, [])

/-- `progressServiceDiscovery`. -/
def progressServiceDiscovery (s : DiscoveryStatus) : Run :=
  match serviceLoop 256 s with
  | .error f => .error f
  | .ok (s1, out) =>
    if s1.serviceDiscoveryInProgress && decide (s1.srvCount > 0) && decide (s1.currSrvInd > 0) then
      match s1.services.read ((s1.currSrvInd : Int) - 1) with
      | none => .error (Fault.servicesIndex ((s1.currSrvInd : Int) - 1))
      | some srv =>
        let endHandle := srv.endHandle
        let s2 := resetDiscoveredServices s1
        .ok (s2, out ++ [Action.sd_ble_gattc_primary_services_discover s2.connHandle endHandle])
    else .ok (s1, out)

/-! ## The event handler -/

/-- The `switch` of `bleGattcEventHandler`. -/
def dispatchEvent (evt : GattcEvt) (s : DiscoveryStatus) : Run :=
  match evt with
  | .primSrvcDiscRsp gatt_status response =>
    if gatt_status = BLE_GATT_STATUS_SUCCESS then
      match setupDiscoveredServices response s with
      | .error f => .error f
      | .ok s1 => .ok (s1, [])
    else if gatt_status = BLE_GATT_STATUS_ATTERR_ATTRIBUTE_NOT_FOUND then
      .ok (terminateServiceDiscovery s)
    else
      .ok ({ s with serviceDiscoveryInProgress := false }, [Action.printGattFailure gatt_status])
  | .charDiscRsp gatt_status response =>
    if gatt_status = BLE_GATT_STATUS_SUCCESS then
      match setupDiscoveredCharacteristics response s with
      | .error f => .error f
      | .ok s1 => .ok (s1, [])
    else if gatt_status = BLE_GATT_STATUS_ATTERR_ATTRIBUTE_NOT_FOUND then
      .ok (terminateCharacteristicDiscovery s, [])
    else
      .ok (s, [Action.printCharGattFailure gatt_status])
  | _ => .ok (s, [])

/-- `bleGattcEventHandler`: the `switch`, then `progressCharacteristicDiscovery`,
then `progressServiceDiscovery`. -/
def bleGattcEventHandler (evt : GattcEvt) (s : DiscoveryStatus) : Run :=
  match dispatchEvent evt s with
  | .error f => .error f
  | .ok (s1, out1) =>
    match progressCharacteristicDiscovery s1 with
    | .error f => .error f
    | .ok (s2, out2) =>
      match progressServiceDiscovery s2 with
      | .error f => .error f
      | .ok (s3, out3) => .ok (s3, out1 ++ out2 ++ out3)

/-- Handle the events of a list one after the other, collecting the actions. -/
def handleEvents : List GattcEvt → DiscoveryStatus → Run
  | [], s => .ok (s, [])
  | evt :: rest, s =>
    match bleGattcEventHandler evt s with
    | .error f => .error f
    | .ok (s1, out1) =>
      match handleEvents rest s1 with
      | .error f => .error f
      | .ok (s2, out2) => .ok (s2, out1 ++ out2)

/-- States reachable from the zero-initialised singleton by calls of
`launchServiceDiscovery` and handled events. -/
inductive Reachable : DiscoveryStatus → Prop where
  | start : Reachable discoveryStatus
  | launch (connectionHandle : Nat) (s : DiscoveryStatus) :
      Reachable s → Reachable (launchServiceDiscovery connectionHandle s).1
  | event (evt : GattcEvt) (s s1 : DiscoveryStatus) (out : List Action) :
      Reachable s → bleGattcEventHandler evt s = .ok (s1, out) → Reachable s1

/-- The events of a run over one page: a successful primary-service response carrying
`page`, one characteristic attribute-not-found response per service of the page,
and a final primary-service attribute-not-found response. -/
def pageThenExhausted (page : List GattcService) : List GattcEvt :=
  GattcEvt.primSrvcDiscRsp BLE_GATT_STATUS_SUCCESS page ::
    (List.replicate page.length
        (GattcEvt.charDiscRsp BLE_GATT_STATUS_ATTERR_ATTRIBUTE_NOT_FOUND []) ++
      [GattcEvt.primSrvcDiscRsp BLE_GATT_STATUS_ATTERR_ATTRIBUTE_NOT_FOUND []])

/-- The progression step that ends `bleGattcEventHandler`:
`progressCharacteristicDiscovery`, then `progressServiceDiscovery`. -/
def progressionStep (s : DiscoveryStatus) : Run :=
  match progressCharacteristicDiscovery s with
  | .error f => .error f
  | .ok (s1, out1) =>
    match progressServiceDiscovery s1 with
    | .error f => .error f
    | .ok (s2, out2) => .ok (s2, out1 ++ out2)

/-- Whether an event is a characteristic discovery response with status
attribute-not-found. -/
def GattcEvt.isCharNotFound : GattcEvt → Bool
  | .charDiscRsp gatt_status _ => decide (gatt_status = BLE_GATT_STATUS_ATTERR_ATTRIBUTE_NOT_FOUND)
  | _ => false

/-- Whether the records of a discovery response fit the four-record arrays. -/
def GattcEvt.fits : GattcEvt → Bool
  | .primSrvcDiscRsp _ services => decide (services.length ≤ BLE_DB_DISCOVERY_MAX_SRV)
  | .charDiscRsp _ chars => decide (chars.length ≤ BLE_DB_DISCOVERY_MAX_CHAR_PER_SRV)
  | _ => true

/-- Whether an action is the line printed by one iteration of the `while` loop of
`progressCharacteristicDiscovery`. -/
def Action.isPrintCharacteristic : Action → Bool
  | .printCharacteristic _ _ => true
  | _ => false

/-- Whether an action is the line printed by one iteration of the `while` loop of
`progressServiceDiscovery`. -/
def Action.isPrintService : Action → Bool
  | .printService _ _ _ => true
  | _ => false

/-- Iterations of the `while` loop of `progressCharacteristicDiscovery` in a run
that emitted `out`: every iteration prints exactly one characteristic line. -/
def characteristicLoopIterations (out : List Action) : Nat :=
  (out.filter Action.isPrintCharacteristic).length

/-- Iterations of the `while` loop of `progressServiceDiscovery` in a run that
emitted `out`: every iteration prints exactly one service line. -/
def serviceLoopIterations (out : List Action) : Nat :=
  (out.filter Action.isPrintService).length

/-! ## Basic facts about the loops -/

theorem characteristicLoop_inactive (fuel : Nat) (s : DiscoveryStatus)
    (h : s.characteristicDiscoveryInProgress = false) :
    characteristicLoop fuel s = .ok (s, []) := by
  cases fuel <;> simp [characteristicLoop, h]

theorem progressCharacteristicDiscovery_inactive (s : DiscoveryStatus)
    (h : s.characteristicDiscoveryInProgress = false) :
    progressCharacteristicDiscovery s = .ok (s, []) := by
  simp [progressCharacteristicDiscovery, characteristicLoop_inactive _ s h, h]

theorem serviceLoop_inactive (fuel : Nat) (s : DiscoveryStatus)
    (h : s.serviceDiscoveryInProgress = false) :
    serviceLoop fuel s = .ok (s, []) := by
  cases fuel <;> simp [serviceLoop, h]

theorem progressServiceDiscovery_inactive (s : DiscoveryStatus)
    (h : s.serviceDiscoveryInProgress = false) :
    progressServiceDiscovery s = .ok (s, []) := by
  simp [progressServiceDiscovery, serviceLoop_inactive _ s h, h]

theorem serviceLoop_consumed (fuel : Nat) (s : DiscoveryStatus)
    (h : s.srvCount ≤ s.currSrvInd) :
    serviceLoop fuel s = .ok (s, []) := by
  have h1 : ¬ s.currSrvInd < s.srvCount := by omega
  cases fuel <;> simp [serviceLoop, h1]

theorem Arr4.read_of_lt {α : Type} (xs : Arr4 α) (i : Nat) (h : i < 4) :
    ∃ a, xs.read (i : Int) = some a := by
  interval_cases i <;> simp [Arr4.read]

theorem Arr4.read_pred {α : Type} (xs : Arr4 α) (i : Nat) (h : 0 < i) :
    xs.read ((i : Int) - 1) = xs.read ((i - 1 : Nat) : Int) := by
  congr 1
  omega

theorem mode_services_iff (s : DiscoveryStatus) :
    s.mode = some Mode.DiscoveringServices ↔
      s.serviceDiscoveryInProgress = true ∧ s.characteristicDiscoveryInProgress = false := by
  cases hs : s.serviceDiscoveryInProgress <;> cases hc : s.characteristicDiscoveryInProgress <;>
    simp [DiscoveryStatus.mode, hs, hc]

theorem mode_idle_iff (s : DiscoveryStatus) :
    s.mode = some Mode.Idle ↔
      s.serviceDiscoveryInProgress = false ∧ s.characteristicDiscoveryInProgress = false := by
  cases hs : s.serviceDiscoveryInProgress <;> cases hc : s.characteristicDiscoveryInProgress <;>
    simp [DiscoveryStatus.mode, hs, hc]

/-- The `while` loop of `progressCharacteristicDiscovery` on a page that fits the
array: it returns with the read cursor at `charCount`, has printed one line per
unread record and has issued no request. -/
theorem characteristicLoop_consumes (fuel : Nat) (s : DiscoveryStatus)
    (hchar : s.characteristicDiscoveryInProgress = true)
    (hidx : s.currCharInd ≤ s.charCount) (hcap : s.charCount ≤ 4)
    (hfuel : s.charCount - s.currCharInd ≤ fuel) :
    ∃ out,
      characteristicLoop fuel s = .ok ({ s with currCharInd := s.charCount }, out) ∧
      requests out = [] ∧ out.length = s.charCount - s.currCharInd := by
  induction fuel generalizing s with
  | zero =>
    have heq : s.currCharInd = s.charCount := by omega
    refine ⟨[], ?_, rfl, by simp [heq]⟩
    have hself : ({ s with currCharInd := s.charCount } : DiscoveryStatus) = s := by
      cases s
      simp_all
    simp [characteristicLoop, heq, hself]
  | succ fuel ih =>
    by_cases hlt : s.currCharInd < s.charCount
    · obtain ⟨c, hc⟩ := Arr4.read_of_lt s.characteristics s.currCharInd (by omega)
      have hmod : (s.currCharInd + 1) % 256 = s.currCharInd + 1 :=
        Nat.mod_eq_of_lt (by omega)
      obtain ⟨out, hout, hreq, hlen⟩ :=
        ih { s with currCharInd := (s.currCharInd + 1) % 256 } hchar
          (by simp only [hmod]; omega) hcap (by simp only [hmod]; omega)
      refine ⟨Action.printCharacteristic c.uuid c.valueHandle :: out, ?_, ?_, ?_⟩
      · have hcond : (s.characteristicDiscoveryInProgress &&
            decide (s.currCharInd < s.charCount)) = true := by simp [hchar, hlt]
        dsimp only at hout
        rw [characteristicLoop, if_pos hcond, hc]
        dsimp only
        rw [hout]
      · simpa [requests, Action.isRequest] using hreq
      · simp only [hmod] at hlen
        simp only [List.length_cons, hlen]
        omega
    · have heq : s.currCharInd = s.charCount := by omega
      refine ⟨[], ?_, rfl, by simp [heq]⟩
      have hself : ({ s with currCharInd := s.charCount } : DiscoveryStatus) = s := by
        cases s
        simp_all
      simp [characteristicLoop, heq, hself]

/-- What `progressCharacteristicDiscovery` does in characteristic mode on a
non-empty page that fits the array: the page is consumed, and the 16-bit
`startHandle` decides between one follow-up request and the local termination of
the sub-discovery. -/
theorem progressCharacteristicDiscovery_page (s : DiscoveryStatus)
    (hchar : s.characteristicDiscoveryInProgress = true)
    (hpos : 0 < s.charCount) (hidx : s.currCharInd ≤ s.charCount)
    (hcap : s.charCount ≤ 4) (hsrv : s.currSrvInd < 4) :
    ∃ last srv out,
      s.characteristics.read ((s.charCount - 1 : Nat) : Int) = some last ∧
      s.services.read (s.currSrvInd : Int) = some srv ∧
      requests out = [] ∧ out.length = s.charCount - s.currCharInd ∧
      progressCharacteristicDiscovery s =
        if (last.valueHandle + 1) % 65536 < srv.endHandle then
          .ok (resetDiscoveredCharacteristics { s with currCharInd := s.charCount },
            out ++ [Action.sd_ble_gattc_characteristics_discover s.connHandle
              ((last.valueHandle + 1) % 65536) srv.endHandle])
        else
          .ok (terminateCharacteristicDiscovery
            (resetDiscoveredCharacteristics { s with currCharInd := s.charCount }), out) := by
  obtain ⟨last, hlast⟩ := Arr4.read_of_lt s.characteristics (s.charCount - 1) (by omega)
  obtain ⟨srv, hsrvr⟩ := Arr4.read_of_lt s.services s.currSrvInd hsrv
  obtain ⟨out, hloop, hreq, hlen⟩ := characteristicLoop_consumes 256 s hchar hidx hcap (by omega)
  refine ⟨last, srv, out, hlast, hsrvr, hreq, hlen, ?_⟩
  have hread : s.characteristics.read ((s.charCount : Int) - 1) = some last := by
    rw [Arr4.read_pred _ _ hpos, hlast]
  rw [progressCharacteristicDiscovery, hloop]
  dsimp only
  rw [if_pos hchar, hread, hsrvr]
  rfl

/-! ## What a returning run of each function can have done -/

/-- A returning run of the `while` loop of `progressCharacteristicDiscovery`
changes nothing but the read cursor, keeps the cursor within the count when it
was, and issues no request. -/
theorem characteristicLoop_frame (fuel : Nat) (s s1 : DiscoveryStatus) (out : List Action)
    (h : characteristicLoop fuel s = .ok (s1, out)) :
    s1 = { s with currCharInd := s1.currCharInd } ∧
    (s.currCharInd ≤ s.charCount → s1.currCharInd ≤ s.charCount) ∧
    requests out = [] := by
  induction fuel generalizing s out with
  | zero =>
    rw [characteristicLoop] at h
    split at h
    · cases h
    · cases h
      exact ⟨rfl, fun hle => hle, rfl⟩
  | succ fuel ih =>
    rw [characteristicLoop] at h
    split at h
    · rename_i hcond
      cases hread : s.characteristics.read s.currCharInd with
      | none => rw [hread] at h; cases h
      | some c =>
        rw [hread] at h
        dsimp only at h
        cases hrec : characteristicLoop fuel
            { s with currCharInd := (s.currCharInd + 1) % 256 } with
        | error f => rw [hrec] at h; cases h
        | ok r =>
          obtain ⟨s2, out2⟩ := r
          rw [hrec] at h
          dsimp only at h
          cases h
          obtain ⟨hs, hle, hreq⟩ := ih _ _ hrec
          dsimp only at hs hle
          refine ⟨hs, fun hidx => hle ?_, ?_⟩
          · have hlt : s.currCharInd < s.charCount := by
              simp only [Bool.and_eq_true, decide_eq_true_eq] at hcond
              exact hcond.2
            exact le_trans (Nat.mod_le _ _) hlt
          · simpa [requests, Action.isRequest] using hreq
    · cases h
      exact ⟨rfl, fun hle => hle, rfl⟩

/-- The two ways `progressCharacteristicDiscovery` returns in characteristic mode,
and the one way it returns otherwise. -/
theorem progressCharacteristicDiscovery_cases (s s2 : DiscoveryStatus) (out : List Action)
    (h : progressCharacteristicDiscovery s = .ok (s2, out)) :
    (s.characteristicDiscoveryInProgress = false ∧ s2 = s ∧ out = []) ∨
    (s.characteristicDiscoveryInProgress = true ∧
      ∃ cursor prints, requests prints = [] ∧
        ((∃ startHandle endHandle,
            s2 = resetDiscoveredCharacteristics { s with currCharInd := cursor } ∧
            out = prints ++
              [Action.sd_ble_gattc_characteristics_discover s.connHandle startHandle endHandle]) ∨
          (s2 = terminateCharacteristicDiscovery
              (resetDiscoveredCharacteristics { s with currCharInd := cursor }) ∧
            out = prints))) := by
  rcases Bool.eq_false_or_eq_true s.characteristicDiscoveryInProgress with hchar | hchar
  · right
    refine ⟨hchar, ?_⟩
    rw [progressCharacteristicDiscovery] at h
    cases hloop : characteristicLoop 256 s with
    | error f => rw [hloop] at h; cases h
    | ok r =>
      obtain ⟨s1, prints⟩ := r
      obtain ⟨hs1, -, hreq⟩ := characteristicLoop_frame _ _ _ _ hloop
      rw [hloop] at h
      dsimp only at h
      have hchar1 : s1.characteristicDiscoveryInProgress = true := by
        rw [hs1]; exact hchar
      have hconn : s1.connHandle = s.connHandle := by rw [hs1]
      rw [if_pos hchar1] at h
      cases hrc : s1.characteristics.read ((s1.currCharInd : Int) - 1) with
      | none => rw [hrc] at h; cases h
      | some c =>
        rw [hrc] at h
        dsimp only at h
        cases hrs : s1.services.read (s1.currSrvInd : Int) with
        | none => rw [hrs] at h; cases h
        | some srv =>
          rw [hrs] at h
          dsimp only at h
          refine ⟨s1.currCharInd, prints, hreq, ?_⟩
          split at h
          · cases h
            left
            refine ⟨(c.valueHandle + 1) % 65536, srv.endHandle,
              congrArg resetDiscoveredCharacteristics hs1, ?_⟩
            show prints ++ [Action.sd_ble_gattc_characteristics_discover s1.connHandle _ _] = _
            rw [hconn]
          · cases h
            right
            exact ⟨congrArg (fun x => terminateCharacteristicDiscovery
              (resetDiscoveredCharacteristics x)) hs1, rfl⟩
  · rw [progressCharacteristicDiscovery_inactive s hchar] at h
    cases h
    exact Or.inl ⟨hchar, rfl, rfl⟩

/-- A returning run of the `while` loop of `progressServiceDiscovery` either did
nothing or launched the characteristic sub-discovery of `services[currSrvInd]`,
once. -/
theorem serviceLoop_cases (fuel : Nat) (s s1 : DiscoveryStatus) (out : List Action)
    (h : serviceLoop fuel s = .ok (s1, out)) :
    (s1 = s ∧ out = [] ∧
      ¬ (s.serviceDiscoveryInProgress = true ∧ s.currSrvInd < s.srvCount)) ∨
    (s.serviceDiscoveryInProgress = true ∧ s.currSrvInd < s.srvCount ∧
      ∃ srv, s.services.read (s.currSrvInd : Int) = some srv ∧
        s1 = characteristicDiscoveryStarted s.connHandle s ∧
        out = [Action.printService srv.uuid srv.startHandle srv.endHandle,
          Action.sd_ble_gattc_characteristics_discover s.connHandle srv.startHandle
            srv.endHandle]) := by
  cases fuel with
  | zero =>
    rw [serviceLoop] at h
    split at h
    · cases h
    · rename_i hcond
      cases h
      left
      refine ⟨rfl, rfl, ?_⟩
      simpa [Bool.and_eq_true, decide_eq_true_eq] using hcond
  | succ fuel =>
    rw [serviceLoop] at h
    split at h
    · rename_i hcond
      simp only [Bool.and_eq_true, decide_eq_true_eq] at hcond
      right
      refine ⟨hcond.1, hcond.2, ?_⟩
      cases hread : s.services.read (s.currSrvInd : Int) with
      | none => rw [hread] at h; cases h
      | some srv =>
        rw [hread] at h
        dsimp only [launchCharacteristicDiscovery] at h
        rw [serviceLoop_inactive fuel _ rfl] at h
        cases h
        exact ⟨srv, rfl, rfl, rfl⟩
    · rename_i hcond
      cases h
      left
      refine ⟨rfl, rfl, ?_⟩
      simpa [Bool.and_eq_true, decide_eq_true_eq] using hcond

/-- The three ways `progressServiceDiscovery` returns: nothing to do, the launch of
one characteristic sub-discovery, or the request for the next service page. -/
theorem progressServiceDiscovery_cases (s s2 : DiscoveryStatus) (out : List Action)
    (h : progressServiceDiscovery s = .ok (s2, out)) :
    (s2 = s ∧ out = []) ∨
    (s.serviceDiscoveryInProgress = true ∧ s.currSrvInd < s.srvCount ∧
      ∃ srv, s.services.read (s.currSrvInd : Int) = some srv ∧
        s2 = characteristicDiscoveryStarted s.connHandle s ∧
        out = [Action.printService srv.uuid srv.startHandle srv.endHandle,
          Action.sd_ble_gattc_characteristics_discover s.connHandle srv.startHandle
            srv.endHandle]) ∨
    (s.serviceDiscoveryInProgress = true ∧ s.srvCount ≤ s.currSrvInd ∧ 0 < s.srvCount ∧
      ∃ srv, s.services.read ((s.currSrvInd : Int) - 1) = some srv ∧
        s2 = resetDiscoveredServices s ∧
        out = [Action.sd_ble_gattc_primary_services_discover s.connHandle srv.endHandle]) := by
  rw [progressServiceDiscovery] at h
  cases hloop : serviceLoop 256 s with
  | error f => rw [hloop] at h; cases h
  | ok r =>
    obtain ⟨s1, out1⟩ := r
    rw [hloop] at h
    dsimp only at h
    rcases serviceLoop_cases _ _ _ _ hloop with ⟨rfl, rfl, hnot⟩ | ⟨hsrv, hlt, srv, hread, rfl, rfl⟩
    · split at h
      · rename_i hcond
        simp only [Bool.and_eq_true, decide_eq_true_eq] at hcond
        obtain ⟨⟨hsrv, hcnt⟩, hind⟩ := hcond
        cases hread : s1.services.read ((s1.currSrvInd : Int) - 1) with
        | none => rw [hread] at h; cases h
        | some srv =>
          rw [hread] at h
          cases h
          right; right
          refine ⟨hsrv, ?_, hcnt, srv, rfl, rfl, rfl⟩
          by_contra hlt
          exact hnot ⟨hsrv, by omega⟩
      · cases h
        exact Or.inl ⟨rfl, rfl⟩
    · have hoff : (characteristicDiscoveryStarted s.connHandle s).serviceDiscoveryInProgress
          = false := rfl
      simp only [hoff, Bool.false_and] at h
      cases h
      right; left
      exact ⟨hsrv, hlt, srv, hread, rfl, rfl⟩

/-- `setupDiscoveredServices`, when it returns, changed only the service page. -/
theorem setupDiscoveredServices_frame (response : List GattcService) (s s1 : DiscoveryStatus)
    (h : setupDiscoveredServices response s = .ok s1) :
    s1 = { s with currSrvInd := 0, srvCount := response.length % 256,
                  services := s1.services } := by
  rw [setupDiscoveredServices] at h
  split at h
  · cases h
  · cases h
    rfl

/-- `setupDiscoveredCharacteristics`, when it returns, changed only the
characteristic page. -/
theorem setupDiscoveredCharacteristics_frame (response : List GattcChar)
    (s s1 : DiscoveryStatus) (h : setupDiscoveredCharacteristics response s = .ok s1) :
    s1 = { s with currCharInd := 0, charCount := response.length % 256,
                  characteristics := s1.characteristics } := by
  rw [setupDiscoveredCharacteristics] at h
  split at h
  · cases h
  · cases h
    rfl

/-- The ways the `switch` of `bleGattcEventHandler` returns. -/
theorem dispatchEvent_cases (evt : GattcEvt) (s s1 : DiscoveryStatus) (out : List Action)
    (h : dispatchEvent evt s = .ok (s1, out)) :
    requests out = [] ∧
    ((∃ response, setupDiscoveredServices response s = .ok s1) ∨
      s1 = { s with serviceDiscoveryInProgress := false } ∨
      (∃ response, setupDiscoveredCharacteristics response s = .ok s1) ∨
      s1 = terminateCharacteristicDiscovery s ∨
      s1 = s) := by
  cases evt with
  | primSrvcDiscRsp gatt_status response =>
    rw [dispatchEvent] at h
    split at h
    · cases hset : setupDiscoveredServices response s with
      | error f => rw [hset] at h; cases h
      | ok s2 =>
        rw [hset] at h
        cases h
        exact ⟨rfl, Or.inl ⟨response, hset⟩⟩
    · split at h
      · cases h
        exact ⟨rfl, Or.inr (Or.inl rfl)⟩
      · cases h
        exact ⟨rfl, Or.inr (Or.inl rfl)⟩
  | charDiscRsp gatt_status response =>
    rw [dispatchEvent] at h
    split at h
    · cases hset : setupDiscoveredCharacteristics response s with
      | error f => rw [hset] at h; cases h
      | ok s2 =>
        rw [hset] at h
        cases h
        exact ⟨rfl, Or.inr (Or.inr (Or.inl ⟨response, hset⟩))⟩
    · split at h
      · cases h
        exact ⟨rfl, Or.inr (Or.inr (Or.inr (Or.inl rfl)))⟩
      · cases h
        exact ⟨rfl, Or.inr (Or.inr (Or.inr (Or.inr rfl)))⟩
  | readRsp handle offset data =>
    cases h
    exact ⟨rfl, Or.inr (Or.inr (Or.inr (Or.inr rfl)))⟩
  | writeRsp handle write_op offset data =>
    cases h
    exact ⟨rfl, Or.inr (Or.inr (Or.inr (Or.inr rfl)))⟩
  | hvx handle type data =>
    cases h
    exact ⟨rfl, Or.inr (Or.inr (Or.inr (Or.inr rfl)))⟩
  | other evt_id =>
    cases h
    exact ⟨rfl, Or.inr (Or.inr (Or.inr (Or.inr rfl)))⟩

/-- A returning run of `bleGattcEventHandler` is a returning run of the `switch`,
of `progressCharacteristicDiscovery` and of `progressServiceDiscovery`. -/
theorem bleGattcEventHandler_steps (evt : GattcEvt) (s s3 : DiscoveryStatus)
    (out : List Action) (h : bleGattcEventHandler evt s = .ok (s3, out)) :
    ∃ s1 out1 s2 out2 out3,
      dispatchEvent evt s = .ok (s1, out1) ∧
      progressCharacteristicDiscovery s1 = .ok (s2, out2) ∧
      progressServiceDiscovery s2 = .ok (s3, out3) ∧
      out = out1 ++ out2 ++ out3 := by
  rw [bleGattcEventHandler] at h
  cases hd : dispatchEvent evt s with
  | error f => rw [hd] at h; cases h
  | ok r1 =>
    obtain ⟨s1, out1⟩ := r1
    rw [hd] at h
    dsimp only at h
    cases hc : progressCharacteristicDiscovery s1 with
    | error f => rw [hc] at h; cases h
    | ok r2 =>
      obtain ⟨s2, out2⟩ := r2
      rw [hc] at h
      dsimp only at h
      cases hs : progressServiceDiscovery s2 with
      | error f => rw [hs] at h; cases h
      | ok r3 =>
        obtain ⟨s3a, out3⟩ := r3
        rw [hs] at h
        dsimp only at h
        cases h
        exact ⟨s1, out1, s2, out2, out3, rfl, hc, hs, rfl⟩

/-- A response of at most four records is stored by
`setupDiscoveredCharacteristics` without fault. -/
theorem setupDiscoveredCharacteristics_fits (response : List GattcChar) (s : DiscoveryStatus)
    (hfit : response.length ≤ BLE_DB_DISCOVERY_MAX_CHAR_PER_SRV) :
    ∃ arr, setupDiscoveredCharacteristics response s =
      .ok { s with currCharInd := 0, charCount := response.length, characteristics := arr } := by
  match response, hfit with
  | [], _ => exact ⟨_, rfl⟩
  | [a], _ => exact ⟨_, rfl⟩
  | [a, b], _ => exact ⟨_, rfl⟩
  | [a, b, c], _ => exact ⟨_, rfl⟩
  | [a, b, c, d], _ => exact ⟨_, rfl⟩
  | _ :: _ :: _ :: _ :: _ :: _, h5 =>
    exact absurd h5 (by simp [BLE_DB_DISCOVERY_MAX_CHAR_PER_SRV])

/-- A response of at most four records is stored by `setupDiscoveredServices`
without fault. -/
theorem setupDiscoveredServices_fits (response : List GattcService) (s : DiscoveryStatus)
    (hfit : response.length ≤ BLE_DB_DISCOVERY_MAX_SRV) :
    ∃ arr, setupDiscoveredServices response s =
      .ok { s with currSrvInd := 0, srvCount := response.length, services := arr } := by
  match response, hfit with
  | [], _ => exact ⟨_, rfl⟩
  | [a], _ => exact ⟨_, rfl⟩
  | [a, b], _ => exact ⟨_, rfl⟩
  | [a, b, c], _ => exact ⟨_, rfl⟩
  | [a, b, c, d], _ => exact ⟨_, rfl⟩
  | _ :: _ :: _ :: _ :: _ :: _, h5 =>
    exact absurd h5 (by simp [BLE_DB_DISCOVERY_MAX_SRV])

/-- No step of the handler sets both flags: the `switch`. -/
theorem dispatchEvent_exclusive (evt : GattcEvt) (s s1 : DiscoveryStatus) (out : List Action)
    (h : dispatchEvent evt s = .ok (s1, out))
    (hex : s.serviceDiscoveryInProgress = false ∨ s.characteristicDiscoveryInProgress = false) :
    s1.serviceDiscoveryInProgress = false ∨ s1.characteristicDiscoveryInProgress = false := by
  rcases (dispatchEvent_cases evt s s1 out h).2 with
    ⟨response, hset⟩ | rfl | ⟨response, hset⟩ | rfl | rfl
  · rw [setupDiscoveredServices_frame _ _ _ hset]
    exact hex
  · exact Or.inl rfl
  · rw [setupDiscoveredCharacteristics_frame _ _ _ hset]
    exact hex
  · exact Or.inr rfl
  · exact hex

/-- No step of the handler sets both flags: `progressCharacteristicDiscovery`. -/
theorem progressCharacteristicDiscovery_exclusive (s s2 : DiscoveryStatus) (out : List Action)
    (h : progressCharacteristicDiscovery s = .ok (s2, out))
    (hex : s.serviceDiscoveryInProgress = false ∨ s.characteristicDiscoveryInProgress = false) :
    s2.serviceDiscoveryInProgress = false ∨ s2.characteristicDiscoveryInProgress = false := by
  rcases progressCharacteristicDiscovery_cases s s2 out h with
    ⟨-, rfl, -⟩ | ⟨-, cursor, prints, -, ⟨_, _, rfl, -⟩ | ⟨rfl, -⟩⟩
  · exact hex
  · exact hex
  · exact Or.inr rfl

/-- No step of the handler sets both flags: `progressServiceDiscovery`. -/
theorem progressServiceDiscovery_exclusive (s s2 : DiscoveryStatus) (out : List Action)
    (h : progressServiceDiscovery s = .ok (s2, out))
    (hex : s.serviceDiscoveryInProgress = false ∨ s.characteristicDiscoveryInProgress = false) :
    s2.serviceDiscoveryInProgress = false ∨ s2.characteristicDiscoveryInProgress = false := by
  rcases progressServiceDiscovery_cases s s2 out h with
    ⟨rfl, -⟩ | ⟨-, -, srv, -, rfl, -⟩ | ⟨-, -, -, srv, -, rfl, -⟩
  · exact hex
  · exact Or.inl rfl
  · exact hex

/-- The read cursor of the characteristic page stays within the count: the
`switch`. -/
theorem dispatchEvent_cursor (evt : GattcEvt) (s s1 : DiscoveryStatus) (out : List Action)
    (h : dispatchEvent evt s = .ok (s1, out)) (hle : s.currCharInd ≤ s.charCount) :
    s1.currCharInd ≤ s1.charCount := by
  rcases (dispatchEvent_cases evt s s1 out h).2 with
    ⟨response, hset⟩ | rfl | ⟨response, hset⟩ | rfl | rfl
  · rw [setupDiscoveredServices_frame _ _ _ hset]
    exact hle
  · exact hle
  · rw [setupDiscoveredCharacteristics_frame _ _ _ hset]
    exact Nat.zero_le _
  · exact hle
  · exact hle

/-- The read cursor of the characteristic page stays within the count:
`progressCharacteristicDiscovery`. -/
theorem progressCharacteristicDiscovery_cursor (s s2 : DiscoveryStatus) (out : List Action)
    (h : progressCharacteristicDiscovery s = .ok (s2, out))
    (hle : s.currCharInd ≤ s.charCount) : s2.currCharInd ≤ s2.charCount := by
  rcases progressCharacteristicDiscovery_cases s s2 out h with
    ⟨-, rfl, -⟩ | ⟨-, cursor, prints, -, ⟨_, _, rfl, -⟩ | ⟨rfl, -⟩⟩
  · exact hle
  · exact Nat.le_refl 0
  · exact Nat.le_refl 0

/-- The read cursor of the characteristic page stays within the count:
`progressServiceDiscovery`. -/
theorem progressServiceDiscovery_cursor (s s2 : DiscoveryStatus) (out : List Action)
    (h : progressServiceDiscovery s = .ok (s2, out))
    (hle : s.currCharInd ≤ s.charCount) : s2.currCharInd ≤ s2.charCount := by
  rcases progressServiceDiscovery_cases s s2 out h with
    ⟨rfl, -⟩ | ⟨-, -, srv, -, rfl, -⟩ | ⟨-, -, -, srv, -, rfl, -⟩
  · exact hle
  · exact Nat.le_refl 0
  · exact hle

/-- No returning run of the handler sets both flags. -/
theorem bleGattcEventHandler_exclusive (evt : GattcEvt) (s s3 : DiscoveryStatus)
    (out : List Action) (h : bleGattcEventHandler evt s = .ok (s3, out))
    (hex : s.serviceDiscoveryInProgress = false ∨ s.characteristicDiscoveryInProgress = false) :
    s3.serviceDiscoveryInProgress = false ∨ s3.characteristicDiscoveryInProgress = false := by
  obtain ⟨s1, out1, s2, out2, out3, hd, hc, hs, -⟩ := bleGattcEventHandler_steps evt s s3 out h
  exact progressServiceDiscovery_exclusive _ _ _ hs
    (progressCharacteristicDiscovery_exclusive _ _ _ hc (dispatchEvent_exclusive _ _ _ _ hd hex))

/-- Every returning run of the handler keeps the characteristic cursor within the
count. -/
theorem bleGattcEventHandler_cursor (evt : GattcEvt) (s s3 : DiscoveryStatus)
    (out : List Action) (h : bleGattcEventHandler evt s = .ok (s3, out))
    (hle : s.currCharInd ≤ s.charCount) : s3.currCharInd ≤ s3.charCount := by
  obtain ⟨s1, out1, s2, out2, out3, hd, hc, hs, -⟩ := bleGattcEventHandler_steps evt s s3 out h
  exact progressServiceDiscovery_cursor _ _ _ hs
    (progressCharacteristicDiscovery_cursor _ _ _ hc (dispatchEvent_cursor _ _ _ _ hd hle))

/-- An index at which a read succeeds is below four. -/
theorem Arr4.lt_of_read {α : Type} (xs : Arr4 α) (i : Nat) (a : α)
    (h : xs.read (i : Int) = some a) : i < 4 := by
  by_contra hge
  have h0 : (i : Int) ≠ 0 := by omega
  have h1 : (i : Int) ≠ 1 := by omega
  have h2 : (i : Int) ≠ 2 := by omega
  have h3 : (i : Int) ≠ 3 := by omega
  simp [Arr4.read, h0, h1, h2, h3] at h

/-- In service mode with an unread record at the cursor, `progressServiceDiscovery`
prints the record and launches its characteristic sub-discovery over the whole
handle range of the record. -/
theorem progressServiceDiscovery_launch (s : DiscoveryStatus) (srv : DiscoveredService)
    (hsrv : s.serviceDiscoveryInProgress = true) (hlt : s.currSrvInd < s.srvCount)
    (hread : s.services.read (s.currSrvInd : Int) = some srv) :
    progressServiceDiscovery s =
      .ok (characteristicDiscoveryStarted s.connHandle s,
        [Action.printService srv.uuid srv.startHandle srv.endHandle,
          Action.sd_ble_gattc_characteristics_discover s.connHandle srv.startHandle
            srv.endHandle]) := by
  have hcond : (s.serviceDiscoveryInProgress && decide (s.currSrvInd < s.srvCount)) = true := by
    simp [hsrv, hlt]
  have hloop : serviceLoop (255 + 1) s =
      .ok (characteristicDiscoveryStarted s.connHandle s,
        [Action.printService srv.uuid srv.startHandle srv.endHandle,
          Action.sd_ble_gattc_characteristics_discover s.connHandle srv.startHandle
            srv.endHandle]) := by
    rw [serviceLoop, if_pos hcond, hread]
    dsimp only [launchCharacteristicDiscovery]
    rw [serviceLoop_inactive 255 _ rfl]
    rfl
  rw [progressServiceDiscovery, show (256 : Nat) = 255 + 1 from rfl, hloop]
  rfl

/-! ## C3: launching a discovery -/

/-- C3: for every connection handle and every prior state, `launchServiceDiscovery`
leaves `connHandle` equal to the handle, the mode DiscoveringServices (service
flag set, characteristic flag clear), an empty service page (`srvCount = 0`,
`currSrvInd = 0`, records zeroed), and its only action is one primary-services
discovery request on that handle starting at handle 0x0001. -/
theorem launchServiceDiscovery_spec (h : Nat) (s : DiscoveryStatus) :
    (launchServiceDiscovery h s).1.connHandle = h ∧
    (launchServiceDiscovery h s).1.serviceDiscoveryInProgress = true ∧
    (launchServiceDiscovery h s).1.characteristicDiscoveryInProgress = false ∧
    (launchServiceDiscovery h s).1.mode = some Mode.DiscoveringServices ∧
    (launchServiceDiscovery h s).1.srvCount = 0 ∧
    (launchServiceDiscovery h s).1.currSrvInd = 0 ∧
    (launchServiceDiscovery h s).1.services = Arr4.fill DiscoveredService.zero ∧
    (launchServiceDiscovery h s).2 =
      [Action.sd_ble_gattc_primary_services_discover h 0x0001] ∧
    requests (launchServiceDiscovery h s).2 =
      [Action.sd_ble_gattc_primary_services_discover h 0x0001] :=
  ⟨rfl, rfl, rfl, rfl, rfl, rfl, rfl, rfl, rfl⟩

/-! ## C4: paging further into the service table -/

/-- C4: in mode DiscoveringServices with a non-empty, fully consumed service page
(`currSrvInd = srvCount`, `0 < srvCount`, at most the four records the array
holds), `progressServiceDiscovery` emits exactly one action, a primary-services
discovery request whose start handle is the `endHandle` of the last record of
the page, resets the page (`srvCount = 0`, `currSrvInd = 0`) and leaves both
flags as they were. -/
theorem progressServiceDiscovery_next_page (s : DiscoveryStatus)
    (hsrv : s.serviceDiscoveryInProgress = true)
    (hchar : s.characteristicDiscoveryInProgress = false)
    (hcons : s.currSrvInd = s.srvCount) (hpos : 0 < s.srvCount)
    (hcap : s.srvCount ≤ BLE_DB_DISCOVERY_MAX_SRV) :
    ∃ last s1,
      s.services.read ((s.srvCount - 1 : Nat) : Int) = some last ∧
      progressServiceDiscovery s =
        .ok (s1, [Action.sd_ble_gattc_primary_services_discover s.connHandle last.endHandle]) ∧
      s1.srvCount = 0 ∧ s1.currSrvInd = 0 ∧
      s1.serviceDiscoveryInProgress = true ∧
      s1.characteristicDiscoveryInProgress = false ∧
      s1.mode = some Mode.DiscoveringServices ∧
      s1 = resetDiscoveredServices s := by
  have hlt : s.srvCount - 1 < 4 := by
    simp only [BLE_DB_DISCOVERY_MAX_SRV] at hcap
    omega
  obtain ⟨last, hlast⟩ := Arr4.read_of_lt s.services (s.srvCount - 1) hlt
  have hpos1 : 0 < s.currSrvInd := by omega
  have hread : s.services.read ((s.currSrvInd : Int) - 1) = some last := by
    rw [Arr4.read_pred _ _ hpos1, hcons, hlast]
  refine ⟨last, resetDiscoveredServices s, hlast, ?_, rfl, rfl, ?_, ?_, ?_, rfl⟩
  · simp [progressServiceDiscovery, serviceLoop_consumed 256 s (by omega), hsrv, hpos,
      hpos1, hread, resetDiscoveredServices]
  · simpa [resetDiscoveredServices] using hsrv
  · simpa [resetDiscoveredServices] using hchar
  · simp [DiscoveryStatus.mode, resetDiscoveredServices, hsrv, hchar]

/-- Witness of C4: a page of one service [1, 5], fully consumed. -/
theorem progressServiceDiscovery_next_page_witness :
    ∃ last s1,
      Arr4.read (Arr4.mk (DiscoveredService.mk 0x1800 1 5) DiscoveredService.zero
        DiscoveredService.zero DiscoveredService.zero) ((1 - 1 : Nat) : Int) = some last ∧
      progressServiceDiscovery
        { discoveryStatus with
          services := Arr4.mk (DiscoveredService.mk 0x1800 1 5) DiscoveredService.zero
            DiscoveredService.zero DiscoveredService.zero
          connHandle := 7, srvCount := 1, currSrvInd := 1
          serviceDiscoveryInProgress := true } =
        .ok (s1, [Action.sd_ble_gattc_primary_services_discover 7 last.endHandle]) ∧
      s1.srvCount = 0 ∧ s1.currSrvInd = 0 ∧
      s1.serviceDiscoveryInProgress = true ∧
      s1.characteristicDiscoveryInProgress = false ∧
      s1.mode = some Mode.DiscoveringServices ∧
      s1 = resetDiscoveredServices
        { discoveryStatus with
          services := Arr4.mk (DiscoveredService.mk 0x1800 1 5) DiscoveredService.zero
            DiscoveredService.zero DiscoveredService.zero
          connHandle := 7, srvCount := 1, currSrvInd := 1
          serviceDiscoveryInProgress := true } :=
  progressServiceDiscovery_next_page
    { discoveryStatus with
      services := Arr4.mk (DiscoveredService.mk 0x1800 1 5) DiscoveredService.zero
        DiscoveredService.zero DiscoveredService.zero
      connHandle := 7, srvCount := 1, currSrvInd := 1
      serviceDiscoveryInProgress := true }
    rfl rfl rfl (by decide) (by decide)

/-! ## C5: a primary-service response that is not a success -/

/-- C5: in mode DiscoveringServices, handling a primary-service discovery
response whose status is not success (attribute-not-found or any other status)
returns, leaves both in-progress flags false (mode Idle), changes nothing else
and issues no outbound request. -/
theorem bleGattcEventHandler_primary_failure (s : DiscoveryStatus) (gatt_status : Nat)
    (response : List GattcService)
    (hmode : s.mode = some Mode.DiscoveringServices)
    (hstatus : gatt_status ≠ BLE_GATT_STATUS_SUCCESS) :
    ∃ s1 out,
      bleGattcEventHandler (GattcEvt.primSrvcDiscRsp gatt_status response) s = .ok (s1, out) ∧
      s1.serviceDiscoveryInProgress = false ∧
      s1.characteristicDiscoveryInProgress = false ∧
      s1.mode = some Mode.Idle ∧
      s1 = { s with serviceDiscoveryInProgress := false } ∧
      requests out = [] := by
  have hchar : s.characteristicDiscoveryInProgress = false :=
    ((mode_services_iff s).1 hmode).2
  have hidle :
      ({ s with serviceDiscoveryInProgress := false } : DiscoveryStatus).mode = some Mode.Idle := by
    simp [DiscoveryStatus.mode, hchar]
  have hc : progressCharacteristicDiscovery { s with serviceDiscoveryInProgress := false } =
      .ok ({ s with serviceDiscoveryInProgress := false }, []) :=
    progressCharacteristicDiscovery_inactive _ hchar
  have hs : progressServiceDiscovery { s with serviceDiscoveryInProgress := false } =
      .ok ({ s with serviceDiscoveryInProgress := false }, []) :=
    progressServiceDiscovery_inactive _ rfl
  by_cases hnf : gatt_status = BLE_GATT_STATUS_ATTERR_ATTRIBUTE_NOT_FOUND
  · refine ⟨{ s with serviceDiscoveryInProgress := false }, [Action.printEndOfServiceDiscovery],
      ?_, rfl, hchar, hidle, rfl, rfl⟩
    subst hnf
    have hd : dispatchEvent
          (GattcEvt.primSrvcDiscRsp BLE_GATT_STATUS_ATTERR_ATTRIBUTE_NOT_FOUND response) s =
        .ok ({ s with serviceDiscoveryInProgress := false },
          [Action.printEndOfServiceDiscovery]) := by
      simp [dispatchEvent, hstatus, terminateServiceDiscovery]
    simp only [bleGattcEventHandler, hd, hc, hs]
    rfl
  · refine ⟨{ s with serviceDiscoveryInProgress := false }, [Action.printGattFailure gatt_status],
      ?_, rfl, hchar, hidle, rfl, rfl⟩
    have hd : dispatchEvent (GattcEvt.primSrvcDiscRsp gatt_status response) s =
        .ok ({ s with serviceDiscoveryInProgress := false },
          [Action.printGattFailure gatt_status]) := by
      simp [dispatchEvent, hstatus, hnf]
    simp only [bleGattcEventHandler, hd, hc, hs]
    rfl

/-- Witness of C5: status 0x0101 (invalid handle) right after a launch on handle 7. -/
theorem bleGattcEventHandler_primary_failure_witness :
    ∃ s1 out,
      bleGattcEventHandler (GattcEvt.primSrvcDiscRsp 0x0101 [])
          (launchServiceDiscovery 7 discoveryStatus).1 = .ok (s1, out) ∧
      s1.serviceDiscoveryInProgress = false ∧
      s1.characteristicDiscoveryInProgress = false ∧
      s1.mode = some Mode.Idle ∧
      s1 = { (launchServiceDiscovery 7 discoveryStatus).1 with
              serviceDiscoveryInProgress := false } ∧
      requests out = [] :=
  bleGattcEventHandler_primary_failure (launchServiceDiscovery 7 discoveryStatus).1 0x0101 []
    rfl (by decide)

/-! ## C8: the scenario of one service and one characteristic -/

/-- C8: after `launchServiceDiscovery` (any handle `h`, any prior state), the
events (1) primary-service success with page [(0x1800, [1,5])], (2) characteristic
success with page [(0x2A00, value handle 3)], (3) characteristic
attribute-not-found, (4) primary-service attribute-not-found are all handled
without fault; (1) issues the characteristic request for [1,5]; (2) issues the
characteristic request for [4,5], the only further characteristic request of the
run; the switch of (3) advances `currSrvInd` from 0 to 1, after which the
progression step of the same event requests further primary services from
handle 5 (the `endHandle` of the consumed page) in mode DiscoveringServices;
after (4) both flags are false. -/
theorem scenario_one_service_one_characteristic (h props decl : Nat) (s : DiscoveryStatus) :
    ∃ s1 s2 d3 s3 s4,
      bleGattcEventHandler (GattcEvt.primSrvcDiscRsp BLE_GATT_STATUS_SUCCESS [⟨0x1800, 1, 5⟩])
          (launchServiceDiscovery h s).1 =
        .ok (s1, [Action.printService 0x1800 1 5,
                  Action.sd_ble_gattc_characteristics_discover h 1 5]) ∧
      bleGattcEventHandler
          (GattcEvt.charDiscRsp BLE_GATT_STATUS_SUCCESS [⟨0x2A00, props, decl, 3⟩]) s1 =
        .ok (s2, [Action.printCharacteristic 0x2A00 3,
                  Action.sd_ble_gattc_characteristics_discover h 4 5]) ∧
      dispatchEvent
          (GattcEvt.charDiscRsp BLE_GATT_STATUS_ATTERR_ATTRIBUTE_NOT_FOUND []) s2 =
        .ok (d3, []) ∧
      s2.currSrvInd = 0 ∧ d3.currSrvInd = 1 ∧
      bleGattcEventHandler
          (GattcEvt.charDiscRsp BLE_GATT_STATUS_ATTERR_ATTRIBUTE_NOT_FOUND []) s2 =
        .ok (s3, [Action.sd_ble_gattc_primary_services_discover h 5]) ∧
      s3.mode = some Mode.DiscoveringServices ∧
      bleGattcEventHandler
          (GattcEvt.primSrvcDiscRsp BLE_GATT_STATUS_ATTERR_ATTRIBUTE_NOT_FOUND []) s3 =
        .ok (s4, [Action.printEndOfServiceDiscovery]) ∧
      s4.serviceDiscoveryInProgress = false ∧
      s4.characteristicDiscoveryInProgress = false ∧
      s4.mode = some Mode.Idle :=
  ⟨_, _, _, _, _, rfl, rfl, rfl, rfl, rfl, rfl, rfl, rfl, rfl, rfl, rfl⟩

/-! ## C1: every service of a page is visited once, in page order -/

/-- C1: after `launchServiceDiscovery` (any handle, any prior state), for a
service page of n records, 1 <= n <= 4, delivered by a successful primary-service
response, when every characteristic sub-discovery is answered attribute-not-found
and a primary-service attribute-not-found response follows the last one, the
run is handled without fault, the characteristic-discovery requests issued are
exactly one per service of the page, over its handle range, in page order, and
the session ends with both in-progress flags false. -/
theorem page_services_visited_once_in_order (h : Nat) (s : DiscoveryStatus)
    (page : List GattcService) (hlo : 1 ≤ page.length)
    (hhi : page.length ≤ BLE_DB_DISCOVERY_MAX_SRV) :
    ∃ s1 out,
      handleEvents (pageThenExhausted page) (launchServiceDiscovery h s).1 = .ok (s1, out) ∧
      charRequests out =
        page.map (fun r =>
          Action.sd_ble_gattc_characteristics_discover h r.start_handle r.end_handle) ∧
      s1.serviceDiscoveryInProgress = false ∧
      s1.characteristicDiscoveryInProgress = false ∧
      s1.mode = some Mode.Idle := by
  match page, hlo, hhi with
  | [a], _, _ => exact ⟨_, _, rfl, rfl, rfl, rfl, rfl⟩
  | [a, b], _, _ => exact ⟨_, _, rfl, rfl, rfl, rfl, rfl⟩
  | [a, b, c], _, _ => exact ⟨_, _, rfl, rfl, rfl, rfl, rfl⟩
  | [a, b, c, d], _, _ => exact ⟨_, _, rfl, rfl, rfl, rfl, rfl⟩
  | [], h0, _ => exact absurd h0 (by decide)
  | _ :: _ :: _ :: _ :: _ :: _, _, h5 =>
    exact absurd h5 (by simp [BLE_DB_DISCOVERY_MAX_SRV])

/-- Witness of C1: a page of two services on connection handle 7. -/
theorem page_services_visited_once_in_order_witness :
    ∃ s1 out,
      handleEvents (pageThenExhausted [⟨0x1800, 1, 5⟩, ⟨0x180F, 6, 9⟩])
          (launchServiceDiscovery 7 discoveryStatus).1 = .ok (s1, out) ∧
      charRequests out =
        [⟨0x1800, 1, 5⟩, ⟨0x180F, 6, 9⟩].map (fun r : GattcService =>
          Action.sd_ble_gattc_characteristics_discover 7 r.start_handle r.end_handle) ∧
      s1.serviceDiscoveryInProgress = false ∧
      s1.characteristicDiscoveryInProgress = false ∧
      s1.mode = some Mode.Idle :=
  page_services_visited_once_in_order 7 discoveryStatus [⟨0x1800, 1, 5⟩, ⟨0x180F, 6, 9⟩]
    (by decide) (by decide)

/-! ## C2 and C7: the follow-up request after a characteristic page -/

/-- C2 (evaluation at the failing input): in mode DiscoveringCharacteristics with
the one-record page [(0x2A00, value handle 0xFFFF)] and the current service
[0xFFF0, 0xFFFF], `valueHandle + 1 = 0x10000` is not below the service's
`endHandle`, yet `progressCharacteristicDiscovery` issues a characteristic
request, over [0, 0xFFFF], stays in DiscoveringCharacteristics and leaves
`currSrvInd` at 0: the start handle is the 16-bit truncation of `valueHandle + 1`. -/
theorem progressCharacteristicDiscovery_at_last_handle :
    ¬ (0xFFFF + 1 < 0xFFFF) ∧
    ∃ s1,
      progressCharacteristicDiscovery
        { discoveryStatus with
          services := Arr4.mk (DiscoveredService.mk 0x1800 0xFFF0 0xFFFF)
            DiscoveredService.zero DiscoveredService.zero DiscoveredService.zero
          characteristics := Arr4.mk (DiscoveredCharacteristic.mk 0x2A00 2 0xFFFE 0xFFFF)
            DiscoveredCharacteristic.zero DiscoveredCharacteristic.zero
            DiscoveredCharacteristic.zero
          connHandle := 7, srvCount := 1, charCount := 1
          characteristicDiscoveryInProgress := true } =
        .ok (s1, [Action.printCharacteristic 0x2A00 0xFFFF,
                  Action.sd_ble_gattc_characteristics_discover 7 0 0xFFFF]) ∧
      s1.mode = some Mode.DiscoveringCharacteristics ∧
      s1.currSrvInd = 0 :=
  ⟨by decide, _, rfl, rfl, rfl⟩

/-- C7 (evaluation at the failing input): after a launch on handle 7, the service
page [(0x1800, [0xFFF0, 0xFFFF])] and the characteristic page
[(0x2A00, value handle 0xFFFF)], the follow-up characteristic request is issued
over [0, 0xFFFF]: its start handle 0 is not greater than the consumed value
handle 0xFFFF. -/
theorem follow_up_request_at_last_handle :
    ∃ s2,
      handleEvents
        [GattcEvt.primSrvcDiscRsp BLE_GATT_STATUS_SUCCESS [⟨0x1800, 0xFFF0, 0xFFFF⟩],
         GattcEvt.charDiscRsp BLE_GATT_STATUS_SUCCESS [⟨0x2A00, 2, 0xFFFE, 0xFFFF⟩]]
        (launchServiceDiscovery 7 discoveryStatus).1 =
        .ok (s2, [Action.printService 0x1800 0xFFF0 0xFFFF,
                  Action.sd_ble_gattc_characteristics_discover 7 0xFFF0 0xFFFF,
                  Action.printCharacteristic 0x2A00 0xFFFF,
                  Action.sd_ble_gattc_characteristics_discover 7 0 0xFFFF]) ∧
      ¬ (0xFFFF < 0) :=
  ⟨_, rfl, by decide⟩

/-! ## C6: a service that spans a single handle -/

/-- C6 (counterexample): after a launch on handle 7, the service page
[(0x1800, [7, 7])], whose only record has `startHandle = endHandle`, makes the
handler issue a characteristic-discovery request for that service, over [7, 7]. -/
theorem single_handle_service_is_requested :
    ∃ s1 out,
      bleGattcEventHandler (GattcEvt.primSrvcDiscRsp BLE_GATT_STATUS_SUCCESS [⟨0x1800, 7, 7⟩])
          (launchServiceDiscovery 7 discoveryStatus).1 = .ok (s1, out) ∧
      charRequests out = [Action.sd_ble_gattc_characteristics_discover 7 7 7] :=
  ⟨_, _, rfl, rfl⟩

/-- C6 (amended): in mode DiscoveringServices with an unread record at the cursor
whose `startHandle` equals its `endHandle`, `progressServiceDiscovery` issues one
characteristic-discovery request for it, over the single-handle range
[startHandle, startHandle], and enters DiscoveringCharacteristics with the
cursor unmoved; when that request is answered attribute-not-found, the switch
counts the service as visited (`currSrvInd + 1`, mode DiscoveringServices) and
`progressCharacteristicDiscovery` issues nothing further for it. -/
theorem single_handle_service_launch (s : DiscoveryStatus) (srv : DiscoveredService)
    (hmode : s.mode = some Mode.DiscoveringServices)
    (hlt : s.currSrvInd < s.srvCount)
    (hread : s.services.read (s.currSrvInd : Int) = some srv)
    (heq : srv.startHandle = srv.endHandle) :
    ∃ s1 d,
      progressServiceDiscovery s =
        .ok (s1, [Action.printService srv.uuid srv.startHandle srv.startHandle,
          Action.sd_ble_gattc_characteristics_discover s.connHandle srv.startHandle
            srv.startHandle]) ∧
      s1.mode = some Mode.DiscoveringCharacteristics ∧
      s1.currSrvInd = s.currSrvInd ∧
      dispatchEvent (GattcEvt.charDiscRsp BLE_GATT_STATUS_ATTERR_ATTRIBUTE_NOT_FOUND []) s1 =
        .ok (d, []) ∧
      d.currSrvInd = s.currSrvInd + 1 ∧
      d.mode = some Mode.DiscoveringServices ∧
      progressCharacteristicDiscovery d = .ok (d, []) := by
  have hsrv : s.serviceDiscoveryInProgress = true := ((mode_services_iff s).1 hmode).1
  have hidx : s.currSrvInd < 4 := Arr4.lt_of_read _ _ _ hread
  have hmod : (s.currSrvInd + 1) % 256 = s.currSrvInd + 1 := Nat.mod_eq_of_lt (by omega)
  refine ⟨characteristicDiscoveryStarted s.connHandle s,
    terminateCharacteristicDiscovery (characteristicDiscoveryStarted s.connHandle s),
    ?_, rfl, rfl, rfl, hmod, rfl, progressCharacteristicDiscovery_inactive _ rfl⟩
  rw [progressServiceDiscovery_launch s srv hsrv hlt hread, ← heq]

/-- Witness of C6 (amended): the page [(0x1800, [7, 7])] right after it was stored. -/
theorem single_handle_service_launch_witness :
    ∃ s1 d,
      progressServiceDiscovery
        { discoveryStatus with
          services := Arr4.mk (DiscoveredService.mk 0x1800 7 7) DiscoveredService.zero
            DiscoveredService.zero DiscoveredService.zero
          connHandle := 7, srvCount := 1, serviceDiscoveryInProgress := true } =
        .ok (s1, [Action.printService 0x1800 7 7,
          Action.sd_ble_gattc_characteristics_discover 7 7 7]) ∧
      s1.mode = some Mode.DiscoveringCharacteristics ∧
      s1.currSrvInd = 0 ∧
      dispatchEvent (GattcEvt.charDiscRsp BLE_GATT_STATUS_ATTERR_ATTRIBUTE_NOT_FOUND []) s1 =
        .ok (d, []) ∧
      d.currSrvInd = 0 + 1 ∧
      d.mode = some Mode.DiscoveringServices ∧
      progressCharacteristicDiscovery d = .ok (d, []) :=
  single_handle_service_launch
    { discoveryStatus with
      services := Arr4.mk (DiscoveredService.mk 0x1800 7 7) DiscoveredService.zero
        DiscoveredService.zero DiscoveredService.zero
      connHandle := 7, srvCount := 1, serviceDiscoveryInProgress := true }
    (DiscoveredService.mk 0x1800 7 7) rfl (by decide) rfl rfl

/-! ## C9: the two flags are never both set -/

/-- C9: in every state reachable from the zero-initialised singleton through
calls of `launchServiceDiscovery` and handled events,
`serviceDiscoveryInProgress` and `characteristicDiscoveryInProgress` are not both
true, so the flags encode one of the three modes. -/
theorem reachable_flags_exclusive (s : DiscoveryStatus) (h : Reachable s) :
    ¬ (s.serviceDiscoveryInProgress = true ∧ s.characteristicDiscoveryInProgress = true) ∧
    ∃ m, s.mode = some m := by
  have hex : s.serviceDiscoveryInProgress = false ∨
      s.characteristicDiscoveryInProgress = false := by
    induction h with
    | start => exact Or.inl rfl
    | launch connectionHandle s _ _ => exact Or.inr rfl
    | event evt s s1 out _ hev ih => exact bleGattcEventHandler_exclusive evt s s1 out hev ih
  constructor
  · rintro ⟨h1, h2⟩
    rcases hex with h0 | h0
    · rw [h0] at h1; cases h1
    · rw [h0] at h2; cases h2
  · rcases hex with h0 | h0
    · cases hc : s.characteristicDiscoveryInProgress
      · exact ⟨Mode.Idle, by simp [DiscoveryStatus.mode, h0, hc]⟩
      · exact ⟨Mode.DiscoveringCharacteristics, by simp [DiscoveryStatus.mode, h0, hc]⟩
    · cases hs : s.serviceDiscoveryInProgress
      · exact ⟨Mode.Idle, by simp [DiscoveryStatus.mode, h0, hs]⟩
      · exact ⟨Mode.DiscoveringServices, by simp [DiscoveryStatus.mode, h0, hs]⟩

/-- Witness of C9: the state after a launch on handle 7 and a service page of one
record, which is in characteristic mode. -/
theorem reachable_flags_exclusive_witness :
    ¬ ((characteristicDiscoveryStarted 7
          { (launchServiceDiscovery 7 discoveryStatus).1 with
            srvCount := 1
            services := Arr4.mk (DiscoveredService.mk 0x1800 1 5) DiscoveredService.zero
              DiscoveredService.zero DiscoveredService.zero }).serviceDiscoveryInProgress = true ∧
        (characteristicDiscoveryStarted 7
          { (launchServiceDiscovery 7 discoveryStatus).1 with
            srvCount := 1
            services := Arr4.mk (DiscoveredService.mk 0x1800 1 5) DiscoveredService.zero
              DiscoveredService.zero DiscoveredService.zero }).characteristicDiscoveryInProgress
          = true) ∧
    ∃ m, (characteristicDiscoveryStarted 7
          { (launchServiceDiscovery 7 discoveryStatus).1 with
            srvCount := 1
            services := Arr4.mk (DiscoveredService.mk 0x1800 1 5) DiscoveredService.zero
              DiscoveredService.zero DiscoveredService.zero }).mode = some m :=
  reachable_flags_exclusive _
    (Reachable.event (GattcEvt.primSrvcDiscRsp BLE_GATT_STATUS_SUCCESS [⟨0x1800, 1, 5⟩])
      (launchServiceDiscovery 7 discoveryStatus).1 _
      [Action.printService 0x1800 1 5, Action.sd_ble_gattc_characteristics_discover 7 1 5]
      (Reachable.launch 7 discoveryStatus Reachable.start) rfl)

/-! ## C10: the cursor of the characteristic page -/

/-- C10: in every state reachable through calls of `launchServiceDiscovery` and
handled events, `currCharInd <= charCount`; and replacing the characteristic
page leaves `currCharInd = 0`: `resetDiscoveredCharacteristics` always,
`setupDiscoveredCharacteristics` whenever it returns, which it does for every
response of at most four records (then `charCount` is the number of records). -/
theorem reachable_characteristic_cursor (s : DiscoveryStatus) (h : Reachable s) :
    s.currCharInd ≤ s.charCount ∧
    (resetDiscoveredCharacteristics s).currCharInd = 0 ∧
    (resetDiscoveredCharacteristics s).charCount = 0 ∧
    (∀ response s1, setupDiscoveredCharacteristics response s = .ok s1 →
      s1.currCharInd = 0 ∧ s1.currCharInd ≤ s1.charCount) ∧
    (∀ response : List GattcChar, response.length ≤ BLE_DB_DISCOVERY_MAX_CHAR_PER_SRV →
      ∃ s1, setupDiscoveredCharacteristics response s = .ok s1 ∧
        s1.currCharInd = 0 ∧ s1.charCount = response.length) := by
  refine ⟨?_, rfl, rfl, ?_, ?_⟩
  · induction h with
    | start => exact Nat.le_refl 0
    | launch connectionHandle s _ ih => exact ih
    | event evt s s1 out _ hev ih => exact bleGattcEventHandler_cursor evt s s1 out hev ih
  · intro response s1 hset
    rw [setupDiscoveredCharacteristics_frame _ _ _ hset]
    exact ⟨rfl, Nat.zero_le _⟩
  · intro response hfit
    obtain ⟨arr, harr⟩ := setupDiscoveredCharacteristics_fits response s hfit
    exact ⟨_, harr, rfl, rfl⟩

/-- Witness of C10: the state after a launch on handle 7, and the page
[(0x2A00, value handle 3)] stored into it. -/
theorem reachable_characteristic_cursor_witness :
    (launchServiceDiscovery 7 discoveryStatus).1.currCharInd ≤
      (launchServiceDiscovery 7 discoveryStatus).1.charCount ∧
    ∃ s1, setupDiscoveredCharacteristics [⟨0x2A00, 2, 2, 3⟩]
          (launchServiceDiscovery 7 discoveryStatus).1 = .ok s1 ∧
        s1.currCharInd = 0 ∧ s1.charCount = [(⟨0x2A00, 2, 2, 3⟩ : GattcChar)].length :=
  ⟨(reachable_characteristic_cursor _ (Reachable.launch 7 discoveryStatus Reachable.start)).1,
    (reachable_characteristic_cursor _
      (Reachable.launch 7 discoveryStatus Reachable.start)).2.2.2.2 [⟨0x2A00, 2, 2, 3⟩]
      (by decide)⟩

/-! ## C12: responses larger than the arrays -/

/-- A service response of at most four records is stored record by record, in
order, with `srvCount` the number of records and nothing else changed. -/
theorem setupDiscoveredServices_stores (response : List GattcService) (s : DiscoveryStatus)
    (hfit : response.length ≤ 4) :
    ∃ s1, setupDiscoveredServices response s = .ok s1 ∧
      s1.srvCount = response.length ∧ s1.currSrvInd = 0 ∧ s1.mode = s.mode ∧
      ∀ (i : Nat) (r : GattcService), response[i]? = some r →
        s1.services.read (i : Int) = some ⟨r.uuid, r.start_handle, r.end_handle⟩ := by
  match response, hfit with
  | [], _ => exact ⟨_, rfl, rfl, rfl, rfl, fun i r h => by simp at h⟩
  | [a], _ =>
    refine ⟨_, rfl, rfl, rfl, rfl, fun i r h => ?_⟩
    rcases i with _ | i
    · simp at h; subst h; rfl
    · simp at h
  | [a, b], _ =>
    refine ⟨_, rfl, rfl, rfl, rfl, fun i r h => ?_⟩
    rcases i with _ | _ | i
    · simp at h; subst h; rfl
    · simp at h; subst h; rfl
    · simp at h
  | [a, b, c], _ =>
    refine ⟨_, rfl, rfl, rfl, rfl, fun i r h => ?_⟩
    rcases i with _ | _ | _ | i
    · simp at h; subst h; rfl
    · simp at h; subst h; rfl
    · simp at h; subst h; rfl
    · simp at h
  | [a, b, c, d], _ =>
    refine ⟨_, rfl, rfl, rfl, rfl, fun i r h => ?_⟩
    rcases i with _ | _ | _ | _ | i
    · simp at h; subst h; rfl
    · simp at h; subst h; rfl
    · simp at h; subst h; rfl
    · simp at h; subst h; rfl
    · simp at h
  | _ :: _ :: _ :: _ :: _ :: _, h5 => exact absurd h5 (by simp)

/-- A characteristic response of at most four records is stored record by
record, in order, with `charCount` the number of records and nothing else
changed. -/
theorem setupDiscoveredCharacteristics_stores (response : List GattcChar)
    (s : DiscoveryStatus) (hfit : response.length ≤ 4) :
    ∃ s1, setupDiscoveredCharacteristics response s = .ok s1 ∧
      s1.charCount = response.length ∧ s1.currCharInd = 0 ∧ s1.mode = s.mode ∧
      ∀ (i : Nat) (r : GattcChar), response[i]? = some r →
        s1.characteristics.read (i : Int) =
          some ⟨r.uuid, r.char_props, r.handle_decl, r.handle_value⟩ := by
  match response, hfit with
  | [], _ => exact ⟨_, rfl, rfl, rfl, rfl, fun i r h => by simp at h⟩
  | [a], _ =>
    refine ⟨_, rfl, rfl, rfl, rfl, fun i r h => ?_⟩
    rcases i with _ | i
    · simp at h; subst h; rfl
    · simp at h
  | [a, b], _ =>
    refine ⟨_, rfl, rfl, rfl, rfl, fun i r h => ?_⟩
    rcases i with _ | _ | i
    · simp at h; subst h; rfl
    · simp at h; subst h; rfl
    · simp at h
  | [a, b, c], _ =>
    refine ⟨_, rfl, rfl, rfl, rfl, fun i r h => ?_⟩
    rcases i with _ | _ | _ | i
    · simp at h; subst h; rfl
    · simp at h; subst h; rfl
    · simp at h; subst h; rfl
    · simp at h
  | [a, b, c, d], _ =>
    refine ⟨_, rfl, rfl, rfl, rfl, fun i r h => ?_⟩
    rcases i with _ | _ | _ | _ | i
    · simp at h; subst h; rfl
    · simp at h; subst h; rfl
    · simp at h; subst h; rfl
    · simp at h; subst h; rfl
    · simp at h
  | _ :: _ :: _ :: _ :: _ :: _, h5 => exact absurd h5 (by simp)

/-- A service response of 5 to 255 records makes `setupDiscoveredServices` write
`services[4]`. -/
theorem setupDiscoveredServices_overflow (response : List GattcService) (s : DiscoveryStatus)
    (hbig : 4 < response.length) (hbyte : response.length < 256) :
    setupDiscoveredServices response s = .error (Fault.servicesIndex 4) := by
  have htake : response.take (response.length % 256) = response := by
    rw [Nat.mod_eq_of_lt hbyte, List.take_length]
  rw [setupDiscoveredServices]
  simp only [htake]
  match response, hbig with
  | a :: b :: c :: d :: e :: rest, _ => rfl
  | [], h0 => exact absurd h0 (by simp)
  | [_], h0 => exact absurd h0 (by simp)
  | [_, _], h0 => exact absurd h0 (by simp)
  | [_, _, _], h0 => exact absurd h0 (by simp)
  | [_, _, _, _], h0 => exact absurd h0 (by simp)

/-- A characteristic response of 5 to 255 records makes
`setupDiscoveredCharacteristics` write `characteristics[4]`. -/
theorem setupDiscoveredCharacteristics_overflow (response : List GattcChar)
    (s : DiscoveryStatus) (hbig : 4 < response.length) (hbyte : response.length < 256) :
    setupDiscoveredCharacteristics response s = .error (Fault.characteristicsIndex 4) := by
  have htake : response.take (response.length % 256) = response := by
    rw [Nat.mod_eq_of_lt hbyte, List.take_length]
  rw [setupDiscoveredCharacteristics]
  simp only [htake]
  match response, hbig with
  | a :: b :: c :: d :: e :: rest, _ => rfl
  | [], h0 => exact absurd h0 (by simp)
  | [_], h0 => exact absurd h0 (by simp)
  | [_, _], h0 => exact absurd h0 (by simp)
  | [_, _, _], h0 => exact absurd h0 (by simp)
  | [_, _, _, _], h0 => exact absurd h0 (by simp)

/-- C12 (counterexample): right after a launch on handle 7, a successful
primary-service response of five records is not rejected: the handler goes on to
write `services[4]`, beyond the last element of the array, and there is no
resulting state in mode Idle. -/
theorem oversized_page_not_rejected :
    bleGattcEventHandler
        (GattcEvt.primSrvcDiscRsp BLE_GATT_STATUS_SUCCESS
          [⟨0x1800, 1, 2⟩, ⟨0x1801, 3, 4⟩, ⟨0x180A, 5, 6⟩, ⟨0x180F, 7, 8⟩, ⟨0x1812, 9, 10⟩])
        (launchServiceDiscovery 7 discoveryStatus).1 = .error (Fault.servicesIndex 4) ∧
    ¬ ∃ s1 out,
      bleGattcEventHandler
          (GattcEvt.primSrvcDiscRsp BLE_GATT_STATUS_SUCCESS
            [⟨0x1800, 1, 2⟩, ⟨0x1801, 3, 4⟩, ⟨0x180A, 5, 6⟩, ⟨0x180F, 7, 8⟩, ⟨0x1812, 9, 10⟩])
          (launchServiceDiscovery 7 discoveryStatus).1 = .ok (s1, out) ∧
      s1.mode = some Mode.Idle := by
  have hrun : bleGattcEventHandler
      (GattcEvt.primSrvcDiscRsp BLE_GATT_STATUS_SUCCESS
        [⟨0x1800, 1, 2⟩, ⟨0x1801, 3, 4⟩, ⟨0x180A, 5, 6⟩, ⟨0x180F, 7, 8⟩, ⟨0x1812, 9, 10⟩])
      (launchServiceDiscovery 7 discoveryStatus).1 = .error (Fault.servicesIndex 4) := rfl
  refine ⟨hrun, ?_⟩
  rintro ⟨s1, out, hok, -⟩
  rw [hrun] at hok
  cases hok

/-- C12 (amended): the code has no capacity check. A successful primary-service
(resp. characteristic) response of at most four records is stored whole: the
stored count is the number of records, the cursor is 0, the records sit at their
indices and the mode is unchanged. A response of 5 to 255 records is neither
rejected nor truncated and the session is not aborted: storing it writes the
record of index 4 beyond the array, and the handler has no defined result. -/
theorem responses_stored_without_capacity_check (s : DiscoveryStatus)
    (services : List GattcService) (chars : List GattcChar)
    (hsrv : services.length < 256) (hchr : chars.length < 256) :
    ((services.length ≤ BLE_DB_DISCOVERY_MAX_SRV ∧
        ∃ s1, setupDiscoveredServices services s = .ok s1 ∧
          s1.srvCount = services.length ∧ s1.currSrvInd = 0 ∧ s1.mode = s.mode ∧
          ∀ (i : Nat) (r : GattcService), services[i]? = some r →
            s1.services.read (i : Int) = some ⟨r.uuid, r.start_handle, r.end_handle⟩) ∨
      (BLE_DB_DISCOVERY_MAX_SRV < services.length ∧
        setupDiscoveredServices services s = .error (Fault.servicesIndex 4) ∧
        bleGattcEventHandler (GattcEvt.primSrvcDiscRsp BLE_GATT_STATUS_SUCCESS services) s =
          .error (Fault.servicesIndex 4))) ∧
    ((chars.length ≤ BLE_DB_DISCOVERY_MAX_CHAR_PER_SRV ∧
        ∃ s1, setupDiscoveredCharacteristics chars s = .ok s1 ∧
          s1.charCount = chars.length ∧ s1.currCharInd = 0 ∧ s1.mode = s.mode ∧
          ∀ (i : Nat) (r : GattcChar), chars[i]? = some r →
            s1.characteristics.read (i : Int) =
              some ⟨r.uuid, r.char_props, r.handle_decl, r.handle_value⟩) ∨
      (BLE_DB_DISCOVERY_MAX_CHAR_PER_SRV < chars.length ∧
        setupDiscoveredCharacteristics chars s = .error (Fault.characteristicsIndex 4) ∧
        bleGattcEventHandler (GattcEvt.charDiscRsp BLE_GATT_STATUS_SUCCESS chars) s =
          .error (Fault.characteristicsIndex 4))) := by
  constructor
  · by_cases hfit : services.length ≤ 4
    · exact Or.inl ⟨hfit, setupDiscoveredServices_stores services s hfit⟩
    · have hbig : 4 < services.length := by omega
      have hset := setupDiscoveredServices_overflow services s hbig hsrv
      refine Or.inr ⟨hbig, hset, ?_⟩
      simp [bleGattcEventHandler, dispatchEvent, hset]
  · by_cases hfit : chars.length ≤ 4
    · exact Or.inl ⟨hfit, setupDiscoveredCharacteristics_stores chars s hfit⟩
    · have hbig : 4 < chars.length := by omega
      have hset := setupDiscoveredCharacteristics_overflow chars s hbig hchr
      refine Or.inr ⟨hbig, hset, ?_⟩
      simp [bleGattcEventHandler, dispatchEvent, hset]

/-- Witness of C12 (amended): a service page of two records and a characteristic
page of five, offered to the state after a launch on handle 7. -/
theorem responses_stored_without_capacity_check_witness :
    (∃ s1, setupDiscoveredServices [⟨0x1800, 1, 5⟩, ⟨0x180F, 6, 9⟩]
          (launchServiceDiscovery 7 discoveryStatus).1 = .ok s1 ∧ s1.srvCount = 2) ∧
    setupDiscoveredCharacteristics
        [⟨0x2A00, 2, 2, 3⟩, ⟨0x2A01, 2, 4, 5⟩, ⟨0x2A04, 2, 6, 7⟩, ⟨0x2A05, 2, 8, 9⟩,
         ⟨0x2A19, 2, 10, 11⟩]
        (launchServiceDiscovery 7 discoveryStatus).1 = .error (Fault.characteristicsIndex 4) := by
  have h := responses_stored_without_capacity_check (launchServiceDiscovery 7 discoveryStatus).1
    [⟨0x1800, 1, 5⟩, ⟨0x180F, 6, 9⟩]
    [⟨0x2A00, 2, 2, 3⟩, ⟨0x2A01, 2, 4, 5⟩, ⟨0x2A04, 2, 6, 7⟩, ⟨0x2A05, 2, 8, 9⟩,
     ⟨0x2A19, 2, 10, 11⟩] (by decide) (by decide)
  refine ⟨?_, ?_⟩
  · rcases h.1 with ⟨-, s1, hs1, hcount, -⟩ | ⟨hbig, -⟩
    · exact ⟨s1, hs1, hcount⟩
    · exact absurd hbig (by decide)
  · rcases h.2 with ⟨hfit, -⟩ | ⟨-, hset, -⟩
    · exact absurd hfit (by decide)
    · exact hset

/-! ## C13: a characteristic response with a failure status -/

/-- C13 (evaluation at the failing input): after a launch on handle 7 and the
service page [(0x1800, [1,5])] the session is in mode
DiscoveringCharacteristics; a characteristic response with status 0x0101 is only
printed by the switch, which leaves the state and its mode as they were; the
progression step of the same event then reads `characteristics[currCharInd - 1]`
with `currCharInd = 0`, so the handler has no defined result instead of a state
in mode Idle. -/
theorem characteristic_failure_status_not_aborted :
    ∃ s1,
      bleGattcEventHandler (GattcEvt.primSrvcDiscRsp BLE_GATT_STATUS_SUCCESS [⟨0x1800, 1, 5⟩])
          (launchServiceDiscovery 7 discoveryStatus).1 =
        .ok (s1, [Action.printService 0x1800 1 5,
                  Action.sd_ble_gattc_characteristics_discover 7 1 5]) ∧
      s1.mode = some Mode.DiscoveringCharacteristics ∧
      dispatchEvent (GattcEvt.charDiscRsp 0x0101 []) s1 =
        .ok (s1, [Action.printCharGattFailure 0x0101]) ∧
      s1.currCharInd = 0 ∧
      bleGattcEventHandler (GattcEvt.charDiscRsp 0x0101 []) s1 =
        .error (Fault.characteristicsIndex (-1)) :=
  ⟨_, rfl, rfl, rfl, rfl, rfl⟩

/-! ## C14: a successful primary-service response without services -/

/-- With an empty service page `progressServiceDiscovery` does nothing. -/
theorem progressServiceDiscovery_empty (s : DiscoveryStatus) (h : s.srvCount = 0) :
    progressServiceDiscovery s = .ok (s, []) := by
  rw [progressServiceDiscovery, serviceLoop_consumed 256 s (by omega)]
  simp [h]

/-- C14 (counterexample): right after a launch on handle 7, a successful
primary-service response without services is handled without request, and the
session is still in mode DiscoveringServices, not Idle. -/
theorem empty_service_page_keeps_discovering :
    ∃ s1,
      bleGattcEventHandler (GattcEvt.primSrvcDiscRsp BLE_GATT_STATUS_SUCCESS [])
          (launchServiceDiscovery 7 discoveryStatus).1 = .ok (s1, []) ∧
      s1.mode = some Mode.DiscoveringServices ∧
      s1.mode ≠ some Mode.Idle :=
  ⟨_, rfl, rfl, by decide⟩

/-- C14 (amended): in mode DiscoveringServices, handling a successful
primary-service response that carries zero services issues no outbound request
and does not terminate discovery: the service page is empty (`srvCount = 0`,
`currSrvInd = 0`), nothing else changes, and the mode is still
DiscoveringServices. -/
theorem bleGattcEventHandler_empty_service_page (s : DiscoveryStatus)
    (hmode : s.mode = some Mode.DiscoveringServices) :
    bleGattcEventHandler (GattcEvt.primSrvcDiscRsp BLE_GATT_STATUS_SUCCESS []) s =
      .ok ({ s with currSrvInd := 0, srvCount := 0 }, []) ∧
    ({ s with currSrvInd := 0, srvCount := 0 } : DiscoveryStatus).mode =
      some Mode.DiscoveringServices := by
  have hchar : s.characteristicDiscoveryInProgress = false :=
    ((mode_services_iff s).1 hmode).2
  have hd : dispatchEvent (GattcEvt.primSrvcDiscRsp BLE_GATT_STATUS_SUCCESS []) s =
      .ok ({ s with currSrvInd := 0, srvCount := 0 }, []) := rfl
  have hc : progressCharacteristicDiscovery { s with currSrvInd := 0, srvCount := 0 } =
      .ok ({ s with currSrvInd := 0, srvCount := 0 }, []) :=
    progressCharacteristicDiscovery_inactive _ hchar
  have hs : progressServiceDiscovery { s with currSrvInd := 0, srvCount := 0 } =
      .ok ({ s with currSrvInd := 0, srvCount := 0 }, []) :=
    progressServiceDiscovery_empty _ rfl
  refine ⟨?_, hmode⟩
  simp only [bleGattcEventHandler, hd, hc, hs]
  rfl

/-- Witness of C14 (amended): the state right after a launch on handle 7. -/
theorem bleGattcEventHandler_empty_service_page_witness :
    bleGattcEventHandler (GattcEvt.primSrvcDiscRsp BLE_GATT_STATUS_SUCCESS [])
        (launchServiceDiscovery 7 discoveryStatus).1 =
      .ok ({ (launchServiceDiscovery 7 discoveryStatus).1 with
              currSrvInd := 0, srvCount := 0 }, []) ∧
    ({ (launchServiceDiscovery 7 discoveryStatus).1 with
        currSrvInd := 0, srvCount := 0 } : DiscoveryStatus).mode =
      some Mode.DiscoveringServices :=
  bleGattcEventHandler_empty_service_page (launchServiceDiscovery 7 discoveryStatus).1 rfl

/-! ## C16, C17 and C20: the progression step without a fresh characteristic page -/

/-- C16 (evaluation at the failing input): after a launch on handle 7 and the
service page [(0x1800, [1,5])] the session is in mode
DiscoveringCharacteristics with an empty characteristic page; the switch leaves
an attribute read response alone, but the progression step of the same event
reads `characteristics[currCharInd - 1]` with `currCharInd = 0`: the handler has
no defined result, so the session state is not left unchanged. -/
theorem read_response_during_characteristic_discovery :
    ∃ s1 out1,
      bleGattcEventHandler (GattcEvt.primSrvcDiscRsp BLE_GATT_STATUS_SUCCESS [⟨0x1800, 1, 5⟩])
          (launchServiceDiscovery 7 discoveryStatus).1 = .ok (s1, out1) ∧
      s1.mode = some Mode.DiscoveringCharacteristics ∧
      s1.currCharInd = 0 ∧ s1.charCount = 0 ∧
      dispatchEvent (GattcEvt.readRsp 3 0 [0x2A]) s1 = .ok (s1, []) ∧
      bleGattcEventHandler (GattcEvt.readRsp 3 0 [0x2A]) s1 =
        .error (Fault.characteristicsIndex (-1)) ∧
      bleGattcEventHandler (GattcEvt.readRsp 3 0 [0x2A]) s1 ≠ .ok (s1, []) :=
  ⟨_, _, rfl, rfl, rfl, rfl, rfl, rfl, fun h => by cases h⟩

/-- C17 (evaluation at the failing input): in mode DiscoveringServices with the
unread page [(0x1800, [1,5])], a first progression step launches the
characteristic sub-discovery of the service; a second step right after it does
not leave the state alone: it reads `characteristics[currCharInd - 1]` with
`currCharInd = 0` and has no defined result. -/
theorem progression_step_twice :
    ∃ s1,
      progressionStep
        { discoveryStatus with
          services := Arr4.mk (DiscoveredService.mk 0x1800 1 5) DiscoveredService.zero
            DiscoveredService.zero DiscoveredService.zero
          connHandle := 7, srvCount := 1, serviceDiscoveryInProgress := true } =
        .ok (s1, [Action.printService 0x1800 1 5,
                  Action.sd_ble_gattc_characteristics_discover 7 1 5]) ∧
      s1.currCharInd = 0 ∧
      progressionStep s1 = .error (Fault.characteristicsIndex (-1)) ∧
      progressionStep s1 ≠ .ok (s1, []) :=
  ⟨_, rfl, rfl, rfl, fun h => by cases h⟩

/-- C20 (evaluation at the failing input): the state after a launch on handle 7
and the service page [(0x1800, [1,5])] is reachable with pages of at most four
records and has `currCharInd = 0` in mode DiscoveringCharacteristics; when a
handle-value notification is handled in it, `progressCharacteristicDiscovery`
reads `characteristics[currCharInd - 1]`, that is index -1. -/
theorem characteristics_read_below_the_array :
    ∃ s1,
      Reachable s1 ∧
      s1.characteristicDiscoveryInProgress = true ∧ s1.currCharInd = 0 ∧
      progressCharacteristicDiscovery s1 = .error (Fault.characteristicsIndex (-1)) ∧
      bleGattcEventHandler (GattcEvt.hvx 3 1 [0x2A]) s1 =
        .error (Fault.characteristicsIndex (-1)) :=
  ⟨_, Reachable.event (GattcEvt.primSrvcDiscRsp BLE_GATT_STATUS_SUCCESS [⟨0x1800, 1, 5⟩])
      (launchServiceDiscovery 7 discoveryStatus).1 _
      [Action.printService 0x1800 1 5, Action.sd_ble_gattc_characteristics_discover 7 1 5]
      (Reachable.launch 7 discoveryStatus Reachable.start) rfl,
    rfl, rfl, rfl, rfl⟩

/-! ## C19: at most one request per handled event -/

theorem requests_append (a b : List Action) : requests (a ++ b) = requests a ++ requests b := by
  simp [requests]

theorem mode_some_iff (s : DiscoveryStatus) :
    (∃ m, s.mode = some m) ↔
      (s.serviceDiscoveryInProgress = false ∨ s.characteristicDiscoveryInProgress = false) := by
  cases hs : s.serviceDiscoveryInProgress <;> cases hc : s.characteristicDiscoveryInProgress <;>
    simp [DiscoveryStatus.mode, hs, hc]

/-- A returning run of `progressServiceDiscovery` issues at most one request. -/
theorem progressServiceDiscovery_requests (s s2 : DiscoveryStatus) (out : List Action)
    (h : progressServiceDiscovery s = .ok (s2, out)) : (requests out).length ≤ 1 := by
  rcases progressServiceDiscovery_cases s s2 out h with
    ⟨-, rfl⟩ | ⟨-, -, srv, -, -, rfl⟩ | ⟨-, -, -, srv, -, -, rfl⟩
  · simp [requests]
  · simp [requests, Action.isRequest]
  · simp [requests, Action.isRequest]

/-- C19: for every session state whose flags encode a mode and every inbound
event, a returning run of `bleGattcEventHandler` (the switch, then
`progressCharacteristicDiscovery`, then `progressServiceDiscovery`) issues at
most one outbound discovery request in total. -/
theorem bleGattcEventHandler_at_most_one_request (evt : GattcEvt) (s s3 : DiscoveryStatus)
    (out : List Action) (hmode : ∃ m, s.mode = some m)
    (h : bleGattcEventHandler evt s = .ok (s3, out)) : (requests out).length ≤ 1 := by
  obtain ⟨s1, out1, s2, out2, out3, hd, hc, hs, rfl⟩ := bleGattcEventHandler_steps evt s s3 out h
  have hex1 := dispatchEvent_exclusive _ _ _ _ hd ((mode_some_iff s).1 hmode)
  have hreq1 : requests out1 = [] := (dispatchEvent_cases _ _ _ _ hd).1
  have hreq3 := progressServiceDiscovery_requests _ _ _ hs
  rw [requests_append, requests_append, hreq1, List.nil_append]
  rcases progressCharacteristicDiscovery_cases s1 s2 out2 hc with
    ⟨-, -, rfl⟩ | ⟨hchar, cursor, prints, hprints, ⟨st, en, rfl, rfl⟩ | ⟨-, rfl⟩⟩
  · simpa [requests] using hreq3
  · have hsrv : s1.serviceDiscoveryInProgress = false := by
      rcases hex1 with h0 | h0
      · exact h0
      · rw [h0] at hchar; cases hchar
    rw [progressServiceDiscovery_inactive
      (resetDiscoveredCharacteristics { s1 with currCharInd := cursor }) hsrv] at hs
    cases hs
    rw [requests_append, hprints]
    simp [requests, Action.isRequest]
  · rw [hprints]
    simpa using hreq3

/-- Witness of C19: the characteristic page [(0x2A00, value handle 3)] handled in
the state after a launch on handle 7 and the service page [(0x1800, [1,5])]. -/
theorem bleGattcEventHandler_at_most_one_request_witness :
    (requests [Action.printCharacteristic 0x2A00 3,
      Action.sd_ble_gattc_characteristics_discover 7 4 5]).length ≤ 1 :=
  bleGattcEventHandler_at_most_one_request
    (GattcEvt.charDiscRsp BLE_GATT_STATUS_SUCCESS [⟨0x2A00, 2, 2, 3⟩])
    (characteristicDiscoveryStarted 7
      { (launchServiceDiscovery 7 discoveryStatus).1 with
        srvCount := 1
        services := Arr4.mk (DiscoveredService.mk 0x1800 1 5) DiscoveredService.zero
          DiscoveredService.zero DiscoveredService.zero })
    _ _ ⟨Mode.DiscoveringCharacteristics, rfl⟩ rfl

/-! ## C15: after a failed primary-service response -/

/-- In mode Idle the `switch` keeps both flags clear unless the event is a
characteristic attribute-not-found response. -/
theorem dispatchEvent_idle (evt : GattcEvt) (s s1 : DiscoveryStatus) (out : List Action)
    (h : dispatchEvent evt s = .ok (s1, out))
    (hsrv : s.serviceDiscoveryInProgress = false)
    (hchar : s.characteristicDiscoveryInProgress = false)
    (hnot : evt.isCharNotFound = false) :
    s1.serviceDiscoveryInProgress = false ∧ s1.characteristicDiscoveryInProgress = false := by
  cases evt with
  | primSrvcDiscRsp gatt_status response =>
    rw [dispatchEvent] at h
    split at h
    · cases hset : setupDiscoveredServices response s with
      | error f => rw [hset] at h; cases h
      | ok s2 =>
        rw [hset] at h
        cases h
        rw [setupDiscoveredServices_frame _ _ _ hset]
        exact ⟨hsrv, hchar⟩
    · split at h
      · cases h; exact ⟨rfl, hchar⟩
      · cases h; exact ⟨rfl, hchar⟩
  | charDiscRsp gatt_status response =>
    rw [dispatchEvent] at h
    split at h
    · cases hset : setupDiscoveredCharacteristics response s with
      | error f => rw [hset] at h; cases h
      | ok s2 =>
        rw [hset] at h
        cases h
        rw [setupDiscoveredCharacteristics_frame _ _ _ hset]
        exact ⟨hsrv, hchar⟩
    · split at h
      · rename_i hnf
        simp [GattcEvt.isCharNotFound, hnf] at hnot
      · cases h; exact ⟨hsrv, hchar⟩
  | readRsp handle offset data => cases h; exact ⟨hsrv, hchar⟩
  | writeRsp handle write_op offset data => cases h; exact ⟨hsrv, hchar⟩
  | hvx handle type data => cases h; exact ⟨hsrv, hchar⟩
  | other evt_id => cases h; exact ⟨hsrv, hchar⟩

/-- The `switch` returns for every event whose records fit the arrays. -/
theorem dispatchEvent_returns (evt : GattcEvt) (s : DiscoveryStatus) (hfit : evt.fits = true) :
    ∃ s1 out, dispatchEvent evt s = .ok (s1, out) := by
  cases evt with
  | primSrvcDiscRsp gatt_status response =>
    simp only [GattcEvt.fits, decide_eq_true_eq] at hfit
    obtain ⟨arr, harr⟩ := setupDiscoveredServices_fits response s hfit
    rw [dispatchEvent, harr]
    split
    · exact ⟨_, _, rfl⟩
    · split <;> exact ⟨_, _, rfl⟩
  | charDiscRsp gatt_status response =>
    simp only [GattcEvt.fits, decide_eq_true_eq] at hfit
    obtain ⟨arr, harr⟩ := setupDiscoveredCharacteristics_fits response s hfit
    rw [dispatchEvent, harr]
    split
    · exact ⟨_, _, rfl⟩
    · split <;> exact ⟨_, _, rfl⟩
  | readRsp handle offset data => exact ⟨_, _, rfl⟩
  | writeRsp handle write_op offset data => exact ⟨_, _, rfl⟩
  | hvx handle type data => exact ⟨_, _, rfl⟩
  | other evt_id => exact ⟨_, _, rfl⟩

/-- In mode Idle a returning run of the handler on an event that is not a
characteristic attribute-not-found response issues no request and stays Idle. -/
theorem bleGattcEventHandler_idle (evt : GattcEvt) (s s3 : DiscoveryStatus) (out : List Action)
    (h : bleGattcEventHandler evt s = .ok (s3, out))
    (hsrv : s.serviceDiscoveryInProgress = false)
    (hchar : s.characteristicDiscoveryInProgress = false)
    (hnot : evt.isCharNotFound = false) :
    s3.serviceDiscoveryInProgress = false ∧ s3.characteristicDiscoveryInProgress = false ∧
      requests out = [] := by
  obtain ⟨s1, out1, s2, out2, out3, hd, hc, hs, rfl⟩ := bleGattcEventHandler_steps evt s s3 out h
  obtain ⟨hsrv1, hchar1⟩ := dispatchEvent_idle _ _ _ _ hd hsrv hchar hnot
  rw [progressCharacteristicDiscovery_inactive _ hchar1] at hc
  cases hc
  rw [progressServiceDiscovery_inactive _ hsrv1] at hs
  cases hs
  refine ⟨hsrv1, hchar1, ?_⟩
  simpa [requests_append] using (dispatchEvent_cases _ _ _ _ hd).1

/-- In mode Idle the handler returns for every event whose records fit the arrays
and that is not a characteristic attribute-not-found response. -/
theorem bleGattcEventHandler_idle_returns (evt : GattcEvt) (s : DiscoveryStatus)
    (hsrv : s.serviceDiscoveryInProgress = false)
    (hchar : s.characteristicDiscoveryInProgress = false)
    (hnot : evt.isCharNotFound = false) (hfit : evt.fits = true) :
    ∃ s3 out, bleGattcEventHandler evt s = .ok (s3, out) := by
  obtain ⟨s1, out1, hd⟩ := dispatchEvent_returns evt s hfit
  obtain ⟨hsrv1, hchar1⟩ := dispatchEvent_idle _ _ _ _ hd hsrv hchar hnot
  refine ⟨s1, out1 ++ [] ++ [], ?_⟩
  simp only [bleGattcEventHandler, hd, progressCharacteristicDiscovery_inactive _ hchar1,
    progressServiceDiscovery_inactive _ hsrv1]

/-- From mode Idle, a returning run over events none of which is a characteristic
attribute-not-found response issues no request and ends Idle. -/
theorem handleEvents_idle (events : List GattcEvt) (s s2 : DiscoveryStatus) (out : List Action)
    (h : handleEvents events s = .ok (s2, out))
    (hsrv : s.serviceDiscoveryInProgress = false)
    (hchar : s.characteristicDiscoveryInProgress = false)
    (hnot : ∀ e ∈ events, e.isCharNotFound = false) :
    s2.serviceDiscoveryInProgress = false ∧ s2.characteristicDiscoveryInProgress = false ∧
      requests out = [] := by
  induction events generalizing s out with
  | nil =>
    cases h
    exact ⟨hsrv, hchar, rfl⟩
  | cons evt rest ih =>
    rw [handleEvents] at h
    cases hev : bleGattcEventHandler evt s with
    | error f => rw [hev] at h; cases h
    | ok r1 =>
      obtain ⟨s1, out1⟩ := r1
      rw [hev] at h
      dsimp only at h
      obtain ⟨hsrv1, hchar1, hreq1⟩ :=
        bleGattcEventHandler_idle _ _ _ _ hev hsrv hchar (hnot evt (List.mem_cons_self _ _))
      cases hrest : handleEvents rest s1 with
      | error f => rw [hrest] at h; cases h
      | ok r2 =>
        obtain ⟨s2a, out2⟩ := r2
        rw [hrest] at h
        dsimp only at h
        cases h
        obtain ⟨hsrv2, hchar2, hreq2⟩ := ih _ _ hrest hsrv1 hchar1
          (fun e he => hnot e (List.mem_cons_of_mem _ he))
        exact ⟨hsrv2, hchar2, by rw [requests_append, hreq1, hreq2]; rfl⟩

/-- From mode Idle, the run over events whose records fit the arrays and none of
which is a characteristic attribute-not-found response returns. -/
theorem handleEvents_idle_returns (events : List GattcEvt) (s : DiscoveryStatus)
    (hsrv : s.serviceDiscoveryInProgress = false)
    (hchar : s.characteristicDiscoveryInProgress = false)
    (hnot : ∀ e ∈ events, e.isCharNotFound = false)
    (hfit : ∀ e ∈ events, e.fits = true) :
    ∃ s2 out, handleEvents events s = .ok (s2, out) := by
  induction events generalizing s with
  | nil => exact ⟨_, _, rfl⟩
  | cons evt rest ih =>
    obtain ⟨s1, out1, hev⟩ := bleGattcEventHandler_idle_returns evt s hsrv hchar
      (hnot evt (List.mem_cons_self _ _)) (hfit evt (List.mem_cons_self _ _))
    obtain ⟨hsrv1, hchar1, -⟩ :=
      bleGattcEventHandler_idle _ _ _ _ hev hsrv hchar (hnot evt (List.mem_cons_self _ _))
    obtain ⟨s2, out2, hrest⟩ := ih s1 hsrv1 hchar1
      (fun e he => hnot e (List.mem_cons_of_mem _ he))
      (fun e he => hfit e (List.mem_cons_of_mem _ he))
    exact ⟨s2, out1 ++ out2, by simp only [handleEvents, hev, hrest]⟩

/-- C15 (counterexample): right after a launch on handle 7, a primary-service
response with status 0x0101 is handled (mode Idle); the later events "successful
primary-service response [(0x1800, [1,5])]" and "characteristic
attribute-not-found response" are handled without any new launch, and the second
one issues a primary-services discovery request from handle 5. -/
theorem request_after_primary_failure :
    ∃ s1 out1 s2 out2,
      bleGattcEventHandler (GattcEvt.primSrvcDiscRsp 0x0101 [])
          (launchServiceDiscovery 7 discoveryStatus).1 = .ok (s1, out1) ∧
      s1.mode = some Mode.Idle ∧
      handleEvents
        [GattcEvt.primSrvcDiscRsp BLE_GATT_STATUS_SUCCESS [⟨0x1800, 1, 5⟩],
         GattcEvt.charDiscRsp BLE_GATT_STATUS_ATTERR_ATTRIBUTE_NOT_FOUND []] s1 =
        .ok (s2, out2) ∧
      requests out2 = [Action.sd_ble_gattc_primary_services_discover 7 5] :=
  ⟨_, _, _, _, rfl, rfl, rfl, rfl⟩

/-- C15 (amended): once a primary-service discovery response with a status other
than success and attribute-not-found has been handled in mode
DiscoveringServices (which leaves the session Idle without request), no outbound
discovery request is issued while handling any later sequence of events that
contains no characteristic attribute-not-found response, and the session stays
Idle; such a sequence is handled without fault when its pages fit the arrays. -/
theorem no_request_after_primary_failure (s : DiscoveryStatus) (gatt_status : Nat)
    (response : List GattcService) (events : List GattcEvt)
    (hmode : s.mode = some Mode.DiscoveringServices)
    (hstatus : gatt_status ≠ BLE_GATT_STATUS_SUCCESS)
    (hnf : gatt_status ≠ BLE_GATT_STATUS_ATTERR_ATTRIBUTE_NOT_FOUND)
    (hnot : ∀ e ∈ events, e.isCharNotFound = false) :
    ∃ s1 out1,
      bleGattcEventHandler (GattcEvt.primSrvcDiscRsp gatt_status response) s = .ok (s1, out1) ∧
      requests out1 = [] ∧ s1.mode = some Mode.Idle ∧
      (∀ s2 out2, handleEvents events s1 = .ok (s2, out2) →
        requests out2 = [] ∧ s2.mode = some Mode.Idle) ∧
      ((∀ e ∈ events, e.fits = true) → ∃ s2 out2, handleEvents events s1 = .ok (s2, out2)) := by
  have hchar : s.characteristicDiscoveryInProgress = false :=
    ((mode_services_iff s).1 hmode).2
  have hd : dispatchEvent (GattcEvt.primSrvcDiscRsp gatt_status response) s =
      .ok ({ s with serviceDiscoveryInProgress := false },
        [Action.printGattFailure gatt_status]) := by
    simp [dispatchEvent, hstatus, hnf]
  have hc : progressCharacteristicDiscovery { s with serviceDiscoveryInProgress := false } =
      .ok ({ s with serviceDiscoveryInProgress := false }, []) :=
    progressCharacteristicDiscovery_inactive _ hchar
  have hs : progressServiceDiscovery { s with serviceDiscoveryInProgress := false } =
      .ok ({ s with serviceDiscoveryInProgress := false }, []) :=
    progressServiceDiscovery_inactive _ rfl
  refine ⟨{ s with serviceDiscoveryInProgress := false }, [Action.printGattFailure gatt_status],
    ?_, rfl, (mode_idle_iff _).2 ⟨rfl, hchar⟩, ?_, ?_⟩
  · simp only [bleGattcEventHandler, hd, hc, hs]
    rfl
  · intro s2 out2 hrun
    obtain ⟨h1, h2, h3⟩ := handleEvents_idle events _ s2 out2 hrun rfl hchar hnot
    exact ⟨h3, (mode_idle_iff _).2 ⟨h1, h2⟩⟩
  · intro hfit
    exact handleEvents_idle_returns events _ rfl hchar hnot hfit

/-- Witness of C15 (amended): status 0x0101 right after a launch on handle 7,
followed by a successful primary-service response and a read response. -/
theorem no_request_after_primary_failure_witness :
    ∃ s1 out1 s2 out2,
      bleGattcEventHandler (GattcEvt.primSrvcDiscRsp 0x0101 [])
          (launchServiceDiscovery 7 discoveryStatus).1 = .ok (s1, out1) ∧
      requests out1 = [] ∧ s1.mode = some Mode.Idle ∧
      handleEvents
        [GattcEvt.primSrvcDiscRsp BLE_GATT_STATUS_SUCCESS [⟨0x1800, 1, 5⟩],
         GattcEvt.readRsp 3 0 [0x2A]] s1 = .ok (s2, out2) ∧
      requests out2 = [] ∧ s2.mode = some Mode.Idle := by
  obtain ⟨s1, out1, h1, hreq1, hidle1, hall, hret⟩ :=
    no_request_after_primary_failure (launchServiceDiscovery 7 discoveryStatus).1 0x0101 []
      [GattcEvt.primSrvcDiscRsp BLE_GATT_STATUS_SUCCESS [⟨0x1800, 1, 5⟩],
       GattcEvt.readRsp 3 0 [0x2A]]
      rfl (by decide) (by decide) (by decide)
  obtain ⟨s2, out2, hrun⟩ := hret (by decide)
  exact ⟨s1, out1, s2, out2, h1, hreq1, hidle1, hrun, hall s2 out2 hrun⟩

/-! ## C18: the loops of the progression step -/

/-- The `while` loop of `progressCharacteristicDiscovery` never exhausts a budget
of more than `4 - currCharInd` iterations: past the fourth record it reads
outside the array. -/
theorem characteristicLoop_fuel (fuel : Nat) (s : DiscoveryStatus)
    (hfuel : 4 - s.currCharInd < fuel) :
    characteristicLoop fuel s ≠ .error Fault.loopFuel := by
  induction fuel generalizing s with
  | zero => omega
  | succ fuel ih =>
    intro hbad
    rw [characteristicLoop] at hbad
    split at hbad
    · cases hread : s.characteristics.read s.currCharInd with
      | none => rw [hread] at hbad; cases hbad
      | some c =>
        have hlt : s.currCharInd < 4 := Arr4.lt_of_read _ _ _ hread
        have hmod : (s.currCharInd + 1) % 256 = s.currCharInd + 1 :=
          Nat.mod_eq_of_lt (by omega)
        have hrec := ih { s with currCharInd := (s.currCharInd + 1) % 256 }
          (by simp only [hmod]; omega)
        rw [hread] at hbad
        dsimp only at hbad
        cases hloop : characteristicLoop fuel
            { s with currCharInd := (s.currCharInd + 1) % 256 } with
        | error f =>
          rw [hloop] at hbad
          cases hbad
          exact hrec hloop
        | ok r =>
          rw [hloop] at hbad
          cases hbad
    · cases hbad

/-- The `while` loop of `progressServiceDiscovery` never exhausts a budget of at
least one iteration. -/
theorem serviceLoop_fuel (fuel : Nat) (s : DiscoveryStatus) :
    serviceLoop (fuel + 1) s ≠ .error Fault.loopFuel := by
  intro hbad
  rw [serviceLoop] at hbad
  split at hbad
  · cases hread : s.services.read (s.currSrvInd : Int) with
    | none => rw [hread] at hbad; cases hbad
    | some srv =>
      rw [hread] at hbad
      dsimp only [launchCharacteristicDiscovery] at hbad
      rw [serviceLoop_inactive fuel _ rfl] at hbad
      cases hbad
  · cases hbad

/-- `progressCharacteristicDiscovery` never runs out of loop budget. -/
theorem progressCharacteristicDiscovery_fuel (s : DiscoveryStatus) :
    progressCharacteristicDiscovery s ≠ .error Fault.loopFuel := by
  intro hbad
  rw [progressCharacteristicDiscovery] at hbad
  cases hloop : characteristicLoop 256 s with
  | error f =>
    rw [hloop] at hbad
    cases hbad
    exact characteristicLoop_fuel 256 s (by omega) hloop
  | ok r =>
    obtain ⟨s1, out⟩ := r
    rw [hloop] at hbad
    dsimp only at hbad
    split at hbad
    · split at hbad
      · cases hbad
      · split at hbad
        · cases hbad
        · split at hbad <;> cases hbad
    · cases hbad

/-- `progressServiceDiscovery` never runs out of loop budget. -/
theorem progressServiceDiscovery_fuel (s : DiscoveryStatus) :
    progressServiceDiscovery s ≠ .error Fault.loopFuel := by
  intro hbad
  rw [progressServiceDiscovery] at hbad
  cases hloop : serviceLoop 256 s with
  | error f =>
    rw [hloop] at hbad
    cases hbad
    exact serviceLoop_fuel 255 s hloop
  | ok r =>
    obtain ⟨s1, out⟩ := r
    rw [hloop] at hbad
    dsimp only at hbad
    split at hbad
    · split at hbad <;> cases hbad
    · cases hbad

/-- A returning run of the `while` loop of `progressCharacteristicDiscovery` made
`charCount - currCharInd` iterations when the flag is set, none otherwise. -/
theorem characteristicLoop_iterations (fuel : Nat) (s s1 : DiscoveryStatus)
    (out : List Action) (h : characteristicLoop fuel s = .ok (s1, out)) :
    characteristicLoopIterations out =
      if s.characteristicDiscoveryInProgress = true then s.charCount - s.currCharInd else 0 := by
  induction fuel generalizing s out with
  | zero =>
    rw [characteristicLoop] at h
    split at h
    · cases h
    · rename_i hcond
      cases h
      simp only [Bool.and_eq_true, decide_eq_true_eq, not_and] at hcond
      split
      · rename_i hchar
        have := hcond hchar
        simp only [characteristicLoopIterations, List.filter_nil, List.length_nil]
        omega
      · rfl
  | succ fuel ih =>
    rw [characteristicLoop] at h
    split at h
    · rename_i hcond
      simp only [Bool.and_eq_true, decide_eq_true_eq] at hcond
      obtain ⟨hchar, hlt⟩ := hcond
      cases hread : s.characteristics.read s.currCharInd with
      | none => rw [hread] at h; cases h
      | some c =>
        have hlt4 : s.currCharInd < 4 := Arr4.lt_of_read _ _ _ hread
        have hmod : (s.currCharInd + 1) % 256 = s.currCharInd + 1 :=
          Nat.mod_eq_of_lt (by omega)
        rw [hread] at h
        dsimp only at h
        cases hrec : characteristicLoop fuel
            { s with currCharInd := (s.currCharInd + 1) % 256 } with
        | error f => rw [hrec] at h; cases h
        | ok r =>
          obtain ⟨s2, out2⟩ := r
          rw [hrec] at h
          dsimp only at h
          cases h
          have hih := ih _ _ hrec
          dsimp only at hih
          rw [if_pos hchar, hmod] at hih
          rw [if_pos hchar]
          simp only [characteristicLoopIterations] at hih ⊢
          simp only [List.filter_cons, Action.isPrintCharacteristic, if_true, List.length_cons, hih]
          omega
    · rename_i hcond
      cases h
      simp only [Bool.and_eq_true, decide_eq_true_eq, not_and] at hcond
      split
      · rename_i hchar
        have := hcond hchar
        simp only [characteristicLoopIterations, List.filter_nil, List.length_nil]
        omega
      · rfl

/-- A returning run of the `while` loop of `progressServiceDiscovery` made at most
one iteration, and after an iteration `serviceDiscoveryInProgress` is false. -/
theorem serviceLoop_iterations (fuel : Nat) (s s1 : DiscoveryStatus) (out : List Action)
    (h : serviceLoop fuel s = .ok (s1, out)) :
    serviceLoopIterations out ≤ 1 ∧
    (serviceLoopIterations out = 1 → s1.serviceDiscoveryInProgress = false) := by
  rcases serviceLoop_cases fuel s s1 out h with ⟨-, rfl, -⟩ | ⟨-, -, srv, -, rfl, rfl⟩
  · exact ⟨Nat.zero_le _, fun h0 => by cases h0⟩
  · exact ⟨by simp [serviceLoopIterations, Action.isPrintService], fun _ => rfl⟩

/-- The `while` loop of `progressServiceDiscovery` returns when the cursor is
inside the array. -/
theorem serviceLoop_returns (s : DiscoveryStatus) (hidx : s.currSrvInd < 4) :
    ∃ s1 out, serviceLoop 256 s = .ok (s1, out) := by
  show ∃ s1 out, serviceLoop (255 + 1) s = .ok (s1, out)
  obtain ⟨srv, hread⟩ := Arr4.read_of_lt s.services s.currSrvInd hidx
  by_cases hcond : (s.serviceDiscoveryInProgress && decide (s.currSrvInd < s.srvCount)) = true
  · refine ⟨characteristicDiscoveryStarted s.connHandle s,
      [Action.printService srv.uuid srv.startHandle srv.endHandle,
        Action.sd_ble_gattc_characteristics_discover s.connHandle srv.startHandle
          srv.endHandle], ?_⟩
    rw [serviceLoop, if_pos hcond, hread]
    dsimp only [launchCharacteristicDiscovery]
    rw [serviceLoop_inactive 255 _ rfl]
    rfl
  · exact ⟨s, [], by rw [serviceLoop, if_neg hcond]⟩

/-- C18 (counterexample): after a launch on handle 7, a primary-service response
with status 0x0101 and a successful characteristic response carrying one record,
the session is Idle with `charCount - currCharInd = 1`; the `while` loop of
`progressCharacteristicDiscovery` returns at once, without any iteration. -/
theorem characteristic_loop_skipped_when_idle :
    ∃ s2 out,
      handleEvents
        [GattcEvt.primSrvcDiscRsp 0x0101 [],
         GattcEvt.charDiscRsp BLE_GATT_STATUS_SUCCESS [⟨0x2A00, 2, 2, 3⟩]]
        (launchServiceDiscovery 7 discoveryStatus).1 = .ok (s2, out) ∧
      s2.mode = some Mode.Idle ∧
      s2.charCount - s2.currCharInd = 1 ∧
      characteristicLoop 256 s2 = .ok (s2, []) ∧
      characteristicLoopIterations [] = 0 :=
  ⟨_, _, rfl, rfl, rfl, rfl, rfl⟩

/-- C18 (amended): for every session state the progression step terminates, in
that neither of its loops exhausts its budget of 256 iterations; a returning run
of the `while` loop of `progressServiceDiscovery` made at most one iteration,
after which `serviceDiscoveryInProgress` is false; a returning run of the
`while` loop of `progressCharacteristicDiscovery` made exactly
`charCount - currCharInd` iterations when `characteristicDiscoveryInProgress` is
set and none when it is clear; and the loops do return when the page and the
cursor are within the arrays. -/
theorem progression_loops_bounded (s : DiscoveryStatus) :
    progressCharacteristicDiscovery s ≠ .error Fault.loopFuel ∧
    progressServiceDiscovery s ≠ .error Fault.loopFuel ∧
    progressionStep s ≠ .error Fault.loopFuel ∧
    (∀ s1 out, serviceLoop 256 s = .ok (s1, out) →
      serviceLoopIterations out ≤ 1 ∧
      (serviceLoopIterations out = 1 → s1.serviceDiscoveryInProgress = false)) ∧
    (∀ s1 out, characteristicLoop 256 s = .ok (s1, out) →
      characteristicLoopIterations out =
        if s.characteristicDiscoveryInProgress = true then s.charCount - s.currCharInd
        else 0) ∧
    (s.currCharInd ≤ s.charCount → s.charCount ≤ BLE_DB_DISCOVERY_MAX_CHAR_PER_SRV →
      ∃ s1 out, characteristicLoop 256 s = .ok (s1, out)) ∧
    (s.currSrvInd < BLE_DB_DISCOVERY_MAX_SRV → ∃ s1 out, serviceLoop 256 s = .ok (s1, out)) := by
  refine ⟨progressCharacteristicDiscovery_fuel s, progressServiceDiscovery_fuel s, ?_,
    fun s1 out h => serviceLoop_iterations 256 s s1 out h,
    fun s1 out h => characteristicLoop_iterations 256 s s1 out h, ?_,
    fun hidx => serviceLoop_returns s hidx⟩
  · intro hbad
    rw [progressionStep] at hbad
    cases hc : progressCharacteristicDiscovery s with
    | error f =>
      rw [hc] at hbad
      cases hbad
      exact progressCharacteristicDiscovery_fuel s hc
    | ok r =>
      obtain ⟨s1, out1⟩ := r
      rw [hc] at hbad
      dsimp only at hbad
      cases hs : progressServiceDiscovery s1 with
      | error f =>
        rw [hs] at hbad
        cases hbad
        exact progressServiceDiscovery_fuel s1 hs
      | ok r2 =>
        rw [hs] at hbad
        cases hbad
  · intro hidx hcap
    rcases Bool.eq_false_or_eq_true s.characteristicDiscoveryInProgress with hchar | hchar
    · obtain ⟨out, hout, -⟩ := characteristicLoop_consumes 256 s hchar hidx hcap
        (by simp only [BLE_DB_DISCOVERY_MAX_CHAR_PER_SRV] at hcap; omega)
      exact ⟨_, _, hout⟩
    · exact ⟨_, _, characteristicLoop_inactive 256 s hchar⟩

/-- Witness of C18 (amended): in mode DiscoveringCharacteristics with the unread
page [(0x2A00, value handle 3)] the characteristic loop returns after one
iteration. -/
theorem progression_loops_bounded_witness :
    ∃ s1 out,
      characteristicLoop 256
        { discoveryStatus with
          characteristics := Arr4.mk (DiscoveredCharacteristic.mk 0x2A00 2 2 3)
            DiscoveredCharacteristic.zero DiscoveredCharacteristic.zero
            DiscoveredCharacteristic.zero
          charCount := 1, characteristicDiscoveryInProgress := true } = .ok (s1, out) ∧
      characteristicLoopIterations out = 1 := by
  have h := progression_loops_bounded
    { discoveryStatus with
      characteristics := Arr4.mk (DiscoveredCharacteristic.mk 0x2A00 2 2 3)
        DiscoveredCharacteristic.zero DiscoveredCharacteristic.zero
        DiscoveredCharacteristic.zero
      charCount := 1, characteristicDiscoveryInProgress := true }
  obtain ⟨s1, out, hrun⟩ := h.2.2.2.2.2.1 (by decide) (by decide)
  exact ⟨s1, out, hrun, h.2.2.2.2.1 s1 out hrun⟩

/-! ## The unguarded read of `characteristics[currCharInd - 1]` in general -/

theorem characteristicLoop_consumed (fuel : Nat) (s : DiscoveryStatus)
    (h : s.charCount ≤ s.currCharInd) :
    characteristicLoop fuel s = .ok (s, []) := by
  have h1 : ¬ s.currCharInd < s.charCount := by omega
  cases fuel <;> simp [characteristicLoop, h1]

/-- In characteristic mode with an empty page, `progressCharacteristicDiscovery`
reads `characteristics[-1]`. -/
theorem progressCharacteristicDiscovery_empty_page (s : DiscoveryStatus)
    (hchar : s.characteristicDiscoveryInProgress = true)
    (hcur : s.currCharInd = 0) (hcount : s.charCount = 0) :
    progressCharacteristicDiscovery s = .error (Fault.characteristicsIndex (-1)) := by
  rw [progressCharacteristicDiscovery, characteristicLoop_consumed 256 s (by omega)]
  dsimp only
  rw [if_pos hchar, hcur]
  rfl

/-- When `progressCharacteristicDiscovery` returns in characteristic mode, the
characteristic page is empty, whatever the state before. -/
theorem progressCharacteristicDiscovery_empties (s s2 : DiscoveryStatus)
    (out : List Action) (h : progressCharacteristicDiscovery s = .ok (s2, out))
    (hchar : s2.characteristicDiscoveryInProgress = true) :
    s2.currCharInd = 0 ∧ s2.charCount = 0 := by
  rcases progressCharacteristicDiscovery_cases s s2 out h with
    ⟨h0, rfl, -⟩ | ⟨-, cursor, prints, -, ⟨_, _, rfl, -⟩ | ⟨rfl, -⟩⟩
  · rw [h0] at hchar; cases hchar
  · exact ⟨rfl, rfl⟩
  · cases hchar

/-- `progressServiceDiscovery` keeps "in characteristic mode the characteristic
page is empty". -/
theorem progressServiceDiscovery_empty_page (s s2 : DiscoveryStatus) (out : List Action)
    (h : progressServiceDiscovery s = .ok (s2, out))
    (hpre : s.characteristicDiscoveryInProgress = true → s.currCharInd = 0 ∧ s.charCount = 0)
    (hchar : s2.characteristicDiscoveryInProgress = true) :
    s2.currCharInd = 0 ∧ s2.charCount = 0 := by
  rcases progressServiceDiscovery_cases s s2 out h with
    ⟨rfl, -⟩ | ⟨-, -, srv, -, rfl, -⟩ | ⟨-, -, -, srv, -, rfl, -⟩
  · exact hpre hchar
  · exact ⟨rfl, rfl⟩
  · exact hpre hchar

/-- In every reachable state in characteristic mode the characteristic page is
empty: the page of a response is consumed and reset within the event that
delivered it. -/
theorem reachable_characteristic_page_empty (s : DiscoveryStatus) (h : Reachable s)
    (hchar : s.characteristicDiscoveryInProgress = true) :
    s.currCharInd = 0 ∧ s.charCount = 0 := by
  cases h with
  | start => cases hchar
  | launch connectionHandle s0 _ => cases hchar
  | event evt s0 _ out _ hev =>
    obtain ⟨s1, out1, s2, out2, out3, -, hc, hs, -⟩ := bleGattcEventHandler_steps evt s0 s out hev
    exact progressServiceDiscovery_empty_page _ _ _ hs
      (fun h2 => progressCharacteristicDiscovery_empties _ _ _ hc h2) hchar

/-- In every reachable state in characteristic mode, an event that the `switch`
leaves alone (here a read response) makes the handler read
`characteristics[-1]`. -/
theorem reachable_read_response_faults (s : DiscoveryStatus) (h : Reachable s)
    (hchar : s.characteristicDiscoveryInProgress = true) (handle offset : Nat)
    (data : List Nat) :
    bleGattcEventHandler (GattcEvt.readRsp handle offset data) s =
      .error (Fault.characteristicsIndex (-1)) := by
  obtain ⟨hcur, hcount⟩ := reachable_characteristic_page_empty s h hchar
  have hd : dispatchEvent (GattcEvt.readRsp handle offset data) s = .ok (s, []) := rfl
  simp only [bleGattcEventHandler, hd,
    progressCharacteristicDiscovery_empty_page s hchar hcur hcount]

/-- A second progression step right after a first one that ended outside
characteristic mode changes nothing and issues nothing. -/
theorem progressionStep_again_outside_characteristics (s s2 : DiscoveryStatus)
    (out : List Action) (h : progressionStep s = .ok (s2, out))
    (hchar : s2.characteristicDiscoveryInProgress = false) :
    progressionStep s2 = .ok (s2, []) := by
  rw [progressionStep] at h
  cases hc : progressCharacteristicDiscovery s with
  | error f => rw [hc] at h; cases h
  | ok r =>
    obtain ⟨s1, out1⟩ := r
    rw [hc] at h
    dsimp only at h
    cases hs : progressServiceDiscovery s1 with
    | error f => rw [hs] at h; cases h
    | ok r2 =>
      obtain ⟨s2a, out2⟩ := r2
      rw [hs] at h
      dsimp only at h
      cases h
      have hagain : progressServiceDiscovery s2 = .ok (s2, []) := by
        rcases progressServiceDiscovery_cases s1 s2 out2 hs with
          ⟨rfl, rfl⟩ | ⟨-, -, srv, -, rfl, -⟩ | ⟨-, -, -, srv, -, rfl, -⟩
        · exact hs
        · cases hchar
        · exact progressServiceDiscovery_empty _ rfl
      simp only [progressionStep, progressCharacteristicDiscovery_inactive s2 hchar, hagain]
      rfl

/-- A second progression step right after a first one that ended in
characteristic mode reads `characteristics[-1]`. -/
theorem progressionStep_again_in_characteristics (s s2 : DiscoveryStatus)
    (out : List Action) (h : progressionStep s = .ok (s2, out))
    (hchar : s2.characteristicDiscoveryInProgress = true) :
    progressionStep s2 = .error (Fault.characteristicsIndex (-1)) := by
  rw [progressionStep] at h
  cases hc : progressCharacteristicDiscovery s with
  | error f => rw [hc] at h; cases h
  | ok r =>
    obtain ⟨s1, out1⟩ := r
    rw [hc] at h
    dsimp only at h
    cases hs : progressServiceDiscovery s1 with
    | error f => rw [hs] at h; cases h
    | ok r2 =>
      obtain ⟨s2a, out2⟩ := r2
      rw [hs] at h
      dsimp only at h
      cases h
      obtain ⟨hcur, hcount⟩ := progressServiceDiscovery_empty_page _ _ _ hs
        (fun h2 => progressCharacteristicDiscovery_empties _ _ _ hc h2) hchar
      simp only [progressionStep,
        progressCharacteristicDiscovery_empty_page s2 hchar hcur hcount]

/-! ## C11: the cursor of the service page -/

end BtleGattc
